import Mathlib

/-!
WiFiManager-esp32: the provisioning state machine.

A shallow embedding of `src/WiFiManager-esp32.cpp`, in the branches compiled
when `ESP8266` is not defined.  The `WiFiManager` object (and the two globals
`n_wifi_networks` and `preferences`) is a record `WiFiManager σ`; every
member function is a function on that record; debug output is left out.  The collaborators that
are not part of the repository (the WiFi radio, the clock, the DNS and HTTP
servers) are an arbitrary state machine `Env σ`; every call made to them is
also appended to a trace, together with every callback invocation, so that
the order of the externally visible actions can be stated.

Functions that loop (`waitForConnectResult`, the portal service loop) or
recurse (`connectWifi` / `doConnectWifi`) take a fuel argument and return
`none` when the fuel is exhausted.  `none` is also what a handler returns
from which control never comes back: `handleReset` restarts the device, and
the argument loop of `handleNotFound` does not end for 256 arguments or more.

An Arduino `String` is a Lean `String`, its bytes are the UTF-8 encoding of
the text (`bytes`), and where the source goes through `c_str()`, `strlen` or
`strncpy` the text is cut at the first NUL (`c_str`).
-/

namespace WiFiManager

/-! ## Collaborator vocabulary -/

/-- Arduino `wl_status_t`, the status enum of the radio. -/
inductive WlStatus where
  | WL_NO_SHIELD
  | WL_IDLE_STATUS
  | WL_NO_SSID_AVAIL
  | WL_SCAN_COMPLETED
  | WL_CONNECTED
  | WL_CONNECT_FAILED
  | WL_CONNECTION_LOST
  | WL_DISCONNECTED
  deriving DecidableEq, Repr

/-- Modelled from the spec: the `Mode` enum of `Status` is declared in the
header, which is not part of the sources; the spec lists its values
(`PORTAL` is the spec's PORTAL_OPEN, under the name the source uses). -/
inductive Mode where
  | IDLE
  | SCANNING
  | PORTAL
  | CONNECTING
  | CONNECTED
  | DISCONNECTED
  | ERASING
  deriving DecidableEq, Repr

/-- Radio mode argument of `WiFi.mode`. -/
inductive WifiMode where
  | WIFI_STA
  | WIFI_AP_STA
  deriving DecidableEq, Repr

/-- Text handed to the HTTP server.  The page templates (`WM_HTTP_*`) live in
the header and are not modelled: a rendered page is named, not spelled out. -/
inductive Text where
  | lit (s : String)
  | page (name : String)
  | pageLength (name : String)
  deriving DecidableEq, Repr

/-- One call made to a collaborator (radio, clock, DNS server, HTTP server,
chip).  Calls that return a value the code uses are fields of `Env`. -/
inductive Call where
  | wifiBegin (ssid pass : String)
  | wifiBeginSaved
  | wifiDisconnect (wifioff : Bool)
  | espWifiDisconnect
  | wifiMode (m : WifiMode)
  | wifiConfig (ip gw sn : Nat)
  | wifiSetHostname (hostname : String)
  | wifiSoftAPConfig (ip gw sn : Nat)
  | wifiSoftAP (apName : String) (apPassword : Option String)
  | wifiScanNetworks (async : Bool)
  | delay (ms : Nat)
  | yield
  | dnsStart
  | dnsProcessNextRequest
  | serverBegin
  | serverReset
  | dnsReset
  | sendHeader (name : String) (value : Text)
  | send (code : Nat) (contentType : String) (body : Text)
  | clientStop
  | espRestart
  deriving DecidableEq, Repr

/-- Everything observable from outside, in order. -/
inductive Event where
  | call (c : Call)
  | statusCb (m : Mode)
  | apCallback
  | saveCallback
  deriving DecidableEq, Repr

/-- An HTTP request as the handlers see it. -/
structure Request where
  uri : String
  hostHeader : String
  isGet : Bool
  args : List (String × String)
  deriving DecidableEq, Repr

/-- Argument lookup `server->arg(name)`: the value of the first argument of
that name, the empty string when there is none. -/
def Request.arg (r : Request) (name : String) : String :=
  match r.args.find? (fun kv => kv.1 == name) with
  | some kv => kv.2
  | none => ""

/-- The collaborators outside the repository, as a state machine over `σ`. -/
structure Env (σ : Type) where
  /-- effect of a call on the outside world -/
  exec : Call → σ → σ
  /-- result of `WiFi.status()` -/
  wifiStatus : σ → WlStatus × σ
  /-- result of the radio's own blocking `WiFi.waitForConnectResult()` -/
  wifiWaitForConnectResult : σ → WlStatus × σ
  /-- result of `WiFi.scanNetworks(...)`, after the call has had its effect -/
  scanResult : σ → Int
  /-- result of `WiFi.scanComplete()` -/
  scanComplete : σ → Int × σ
  /-- result of `millis()`, an unsigned 32-bit value -/
  millis : σ → Nat × σ
  /-- result of `WiFi.softAPIP()`, as a 32-bit value -/
  softAPIP : σ → Nat
  /-- result of `ESP.getEfuseMac()` -/
  efuseMac : σ → Nat
  /-- request that `server->handleClient()` finds pending, if any -/
  nextRequest : σ → Option Request × σ
  /-- address left in an `IPAddress` by `fromString` -/
  ipFromString : Nat → String → Nat

/-! ## Credential store (`Preferences`) -/

/-- A stored value: the store is typed by key. -/
inductive PrefValue where
  | str (s : String)
  | bool (b : Bool)
  deriving DecidableEq, Repr

/-- The `Preferences` global: get/put/erase by string key, usable only
between `begin` and `end`. -/
structure Preferences where
  started : Bool
  entries : List (String × PrefValue)
  deriving DecidableEq, Repr

namespace Preferences

def lookup (p : Preferences) (key : String) : Option PrefValue :=
  (p.entries.find? (fun kv => kv.1 == key)).map (fun kv => kv.2)

def begin_ (p : Preferences) : Preferences :=
  { p with started := true }

def end_ (p : Preferences) : Preferences :=
  { p with started := false }

def getString (p : Preferences) (key : String) (defaultValue : String) : String :=
  if p.started then
    match p.lookup key with
    | some (PrefValue.str s) => s
    | _ => defaultValue
  else defaultValue

def getBool (p : Preferences) (key : String) (defaultValue : Bool) : Bool :=
  if p.started then
    match p.lookup key with
    | some (PrefValue.bool b) => b
    | _ => defaultValue
  else defaultValue

def put (p : Preferences) (key : String) (v : PrefValue) : Preferences :=
  if p.started then
    { p with entries := (key, v) :: p.entries.filter (fun kv => !(kv.1 == key)) }
  else p

def putString (p : Preferences) (key : String) (value : String) : Preferences :=
  p.put key (PrefValue.str value)

def putBool (p : Preferences) (key : String) (value : Bool) : Preferences :=
  p.put key (PrefValue.bool value)

def remove (p : Preferences) (key : String) : Preferences :=
  if p.started then
    { p with entries := p.entries.filter (fun kv => !(kv.1 == key)) }
  else p

end Preferences

/-! ## The manager -/

/-- The bytes of an Arduino `String` or of a C string: the UTF-8 encoding of
its text. -/
def bytes (s : String) : List UInt8 :=
  s.toList.flatMap String.utf8EncodeChar

/-- The `String` made from `s.c_str()`: the text before the first NUL. -/
def c_str (s : String) : String :=
  String.mk (s.toList.takeWhile (fun c => c ≠ Char.ofNat 0))

/-- The C function `strlen`, on the C string of `s`: a number of bytes. -/
def strlen (s : String) : Nat :=
  (bytes (c_str s)).length

/-- A registered custom parameter (`WiFiManagerParameter`).  `_id = none` and
`_value = none` are the `NULL` pointers of the custom-HTML-only parameter; a
value buffer is read as the C string it holds, byte by byte. -/
structure WiFiManagerParameter where
  _id : Option String
  _placeholder : String
  _length : Nat
  _value : Option (List UInt8)
  _customHTML : String
  deriving DecidableEq, Repr

/-- The member `WiFiManagerParameter::init`: a buffer of `length + 1` bytes
whose first `length` bytes are zeroed, then `strncpy(_value, defaultValue,
length)`.  The last byte of the buffer is not written; it is taken to be 0,
as it must be for the buffer to be read when the default value has `length`
bytes or more. -/
def WiFiManagerParameter.init (id : Option String) (placeholder : String)
    (defaultValue : Option String) (length : Nat) (custom : String) : WiFiManagerParameter :=
  { _id := id, _placeholder := placeholder, _length := length,
    _value := some (match defaultValue with
      | none => []
      | some d => (bytes (c_str d)).take length),
    _customHTML := custom }

end WiFiManager

open WiFiManager in
/-- The `WiFiManager` object together with the globals of the file
(`n_wifi_networks`, `preferences`), the outside world `env` and the trace of
what has been observed.  `mode` is `status.mode`.  A callback pointer is
`true` when a callback is registered.  `_ssid = none` is the Arduino `String`
without a buffer, the only `String` that converts to `false` in
`if (_ssid)`.  An `IPAddress` is its 32-bit value, and converts to `true`
when it is not zero. -/
structure WiFiManager (σ : Type) where
  mode : Mode
  _statusCb : Bool
  _apcallback : Bool
  _savecallback : Bool
  _preferences_opened : Bool
  _ssid : Option String
  _pass : String
  _hostname : String
  _defaultHostname : String
  _appendMacToHostname : Bool
  _apName : String
  _apPassword : Option String
  _configPortalStart : Nat
  _configPortalTimeout : Nat
  _connectTimeout : Nat
  _sta_static_ip : Nat
  _sta_static_gw : Nat
  _sta_static_sn : Nat
  _ap_static_ip : Nat
  _ap_static_gw : Nat
  _ap_static_sn : Nat
  _tryWPS : Bool
  _shouldBreakAfterConfig : Bool
  connect : Bool
  n_wifi_networks : Int
  _params : List WiFiManagerParameter
  preferences : Preferences
  env : σ
  trace : List Event

namespace WiFiManager

variable {σ : Type}

/-- Width of `unsigned long` on the target. -/
def ULONG : Nat := 2 ^ 32

/-- The portal timeout `autoConnect` installs, in seconds (`#define`). -/
def DEFAULT_TIMEOUT : Nat := 300

/-- Make a call to a collaborator and record it. -/
def call (E : Env σ) (c : Call) (s : WiFiManager σ) : WiFiManager σ :=
  { s with env := E.exec c s.env, trace := s.trace ++ [Event.call c] }

/-- The idiom `if (_statusCb) { _statusCb(status); }`. -/
def notifyStatus (s : WiFiManager σ) : WiFiManager σ :=
  if s._statusCb then { s with trace := s.trace ++ [Event.statusCb s.mode] } else s

/-- The idiom `if (_savecallback != NULL) { _savecallback(); }`. -/
def notifySave (s : WiFiManager σ) : WiFiManager σ :=
  if s._savecallback then { s with trace := s.trace ++ [Event.saveCallback] } else s

/-- Read `WiFi.status()`. -/
def wifiStatus (E : Env σ) (s : WiFiManager σ) : WlStatus × WiFiManager σ :=
  let r := E.wifiStatus s.env
  (r.1, { s with env := r.2 })

/-- Read `millis()`, an `unsigned long`. -/
def millis (E : Env σ) (s : WiFiManager σ) : Nat × WiFiManager σ :=
  let r := E.millis s.env
  (r.1 % ULONG, { s with env := r.2 })

def setConfigPortalTimeout (seconds : Nat) (s : WiFiManager σ) : WiFiManager σ :=
  { s with _configPortalTimeout := (seconds * 1000) % ULONG }

def setTimeout (seconds : Nat) (s : WiFiManager σ) : WiFiManager σ :=
  setConfigPortalTimeout seconds s

def setConnectTimeout (seconds : Nat) (s : WiFiManager σ) : WiFiManager σ :=
  { s with _connectTimeout := (seconds * 1000) % ULONG }

def setBreakAfterConfig (shouldBreak : Bool) (s : WiFiManager σ) : WiFiManager σ :=
  { s with _shouldBreakAfterConfig := shouldBreak }

/-- The branch compiled when `ESP8266` is not defined (no count of associated
stations). -/
def configPortalHasTimeout (E : Env σ) (s : WiFiManager σ) : Bool × WiFiManager σ :=
  if s._configPortalTimeout = 0 then
    let r := millis E s
    (false, { r.2 with _configPortalStart := r.1 })
  else
    let r := millis E s
    (decide (r.1 > (s._configPortalStart + s._configPortalTimeout) % ULONG), r.2)

/-! ## Network identity -/

def getHostname (s : WiFiManager σ) : String := s._hostname

def setDefaultHostname (hostname : String) (s : WiFiManager σ) : WiFiManager σ :=
  { s with _defaultHostname := hostname }

/-- One pass of the two byte-reversal loops of `getMac`: byte `n` of `tmp64`
is moved to byte `top - n` of the result. -/
def getMacBytes (tmp64 top : Nat) (mac_rev : Nat) : Nat :=
  (List.range 3).foldl
    (fun acc n => acc ||| (((tmp64 >>> (n * 8)) &&& 0xFF) <<< ((top - n) * 8))) mac_rev

def getMac (E : Env σ) (s : WiFiManager σ) : Nat :=
  let tmp := E.efuseMac s.env % 2 ^ 64
  let mac_rev := getMacBytes (tmp &&& 0xFFFFFF) 5 0
  getMacBytes ((tmp >>> 24) &&& 0xFFFFFF) 2 mac_rev

/-- The loop `for (i = length - 2; i > 0; i -= 2)` of `getMacAsString`. -/
def insertColonsLoop : Nat → Nat → List Char → List Char
  | 0, _, str => str
  | fuel + 1, i, str =>
    if i > 0 then insertColonsLoop fuel (i - 2) (str.take i ++ ':' :: str.drop i)
    else str

def getMacAsString (E : Env σ) (s : WiFiManager σ) (insertColons : Bool) : String :=
  let mac64 := getMac E s
  let macStr := Nat.toDigits 16 ((mac64 >>> 32) % 2 ^ 16) ++ Nat.toDigits 16 (mac64 % 2 ^ 32)
  let length := macStr.length
  let macStr := macStr.map Char.toUpper
  if insertColons then String.mk (insertColonsLoop length (length - 2) macStr)
  else String.mk macStr

def readHostname (E : Env σ) (s : WiFiManager σ) : WiFiManager σ :=
  if s.preferences.getBool "useHostname" false then
    { s with _hostname := s.preferences.getString "hostname" "ESP" }
  else if s._appendMacToHostname then
    { s with _hostname := s._defaultHostname ++ "-" ++ getMacAsString E s false }
  else
    { s with _hostname := s._defaultHostname }

def readNetworkCredentials (s : WiFiManager σ) : WiFiManager σ :=
  { s with _ssid := some (s.preferences.getString "ssid" "ESP"),
           _pass := s.preferences.getString "pass" "ESP" }

def appendMacToHostname (E : Env σ) (value : Bool) (s : WiFiManager σ) : WiFiManager σ :=
  readHostname E { s with _appendMacToHostname := value }

/-- The member `configure`; `statusCb` tells whether a callback is passed. -/
def configure (E : Env σ) (hostname : String) (statusCb : Bool) (s : WiFiManager σ) :
    WiFiManager σ :=
  let s := { s with preferences := s.preferences.begin_, _preferences_opened := true }
  let s := { s with _statusCb := statusCb }
  let s := notifyStatus { s with mode := Mode.CONNECTING }
  let s := appendMacToHostname E true s
  let s := setDefaultHostname hostname s
  let s := readHostname E s
  readNetworkCredentials s

/-! ## Connecting -/

/-- The polling loop of `waitForConnectResult`; `start` is the value read
from `millis()` before the loop. -/
def waitLoop (E : Env σ) (start : Nat) :
    Nat → WiFiManager σ → Option (WlStatus × WiFiManager σ)
  | 0, _ => none
  | fuel + 1, s =>
    let r := wifiStatus E s
    let wifiStatus_ := r.1
    let m := millis E r.2
    let timedOut := decide (m.1 > (start + m.2._connectTimeout) % ULONG)
    let done := wifiStatus_ = WlStatus.WL_CONNECTED ∨ wifiStatus_ = WlStatus.WL_CONNECT_FAILED
    let s := call E (Call.delay 100) m.2
    if timedOut ∨ done then some (wifiStatus_, s) else waitLoop E start fuel s

def waitForConnectResult (E : Env σ) (fuel : Nat) (s : WiFiManager σ) :
    Option (WlStatus × WiFiManager σ) :=
  if s._connectTimeout = 0 then
    let r := E.wifiWaitForConnectResult s.env
    some (r.1, { s with env := r.2 })
  else
    let m := millis E s
    match waitLoop E m.1 fuel m.2 with
    | none => none
    | some (wifiStatus_, s) =>
      let s :=
        if wifiStatus_ = WlStatus.WL_CONNECTED then { s with mode := Mode.CONNECTED }
        else if wifiStatus_ = WlStatus.WL_CONNECT_FAILED then { s with mode := Mode.CONNECTED }
        else s
      some (wifiStatus_, notifyStatus s)

/-- The branch compiled when `ESP8266` is not defined: nothing happens. -/
def startWPS (s : WiFiManager σ) : WiFiManager σ := s

mutual

def connectWifi (E : Env σ) :
    Nat → String → String → WiFiManager σ → Option (WlStatus × WiFiManager σ)
  | 0, _, _, _ => none
  | fuel + 1, ssid, pass, s =>
    match doConnectWifi E fuel ssid pass 0 s with
    | none => none
    | some (connRes, s) =>
      let second :=
        if connRes ≠ WlStatus.WL_CONNECTED then
          doConnectWifi E fuel ssid pass 1 (call E (Call.wifiDisconnect true) s)
        else some (connRes, s)
      match second with
      | none => none
      | some (connRes, s) =>
        let r1 := wifiStatus E s
        let s :=
          if r1.1 = WlStatus.WL_CONNECTED then { r1.2 with mode := Mode.CONNECTED }
          else
            let r2 := wifiStatus E r1.2
            if r2.1 = WlStatus.WL_DISCONNECTED then { r2.2 with mode := Mode.DISCONNECTED }
            else r2.2
        let s := notifyStatus s
        if s._tryWPS ∧ connRes ≠ WlStatus.WL_CONNECTED ∧ pass = "" then
          waitForConnectResult E (fuel + 1) (startWPS s)
        else some (connRes, s)

def doConnectWifi (E : Env σ) :
    Nat → String → String → Nat → WiFiManager σ → Option (WlStatus × WiFiManager σ)
  | 0, _, _, _, _ => none
  | fuel + 1, ssid, pass, _count, s =>
    let s :=
      if s._sta_static_ip ≠ 0 then
        call E (Call.wifiConfig s._sta_static_ip s._sta_static_gw s._sta_static_sn) s
      else s
    let r := wifiStatus E s
    if r.1 = WlStatus.WL_CONNECTED then
      some (WlStatus.WL_CONNECTED, notifyStatus { r.2 with mode := Mode.CONNECTED })
    else
      let s := r.2
      let hostname := getHostname s
      let s := call E (Call.wifiSetHostname hostname) s
      let started : Option (WiFiManager σ) :=
        if ssid ≠ "" then some (call E (Call.wifiBegin ssid pass) s)
        else if s._ssid.isSome then
          let s := call E Call.espWifiDisconnect s
          let s := call E Call.wifiBeginSaved s
          let s := call E (Call.wifiMode WifiMode.WIFI_STA) s
          (connectWifi E fuel (s._ssid.getD "") s._pass s).map (fun r => r.2)
        else some s
      match started with
      | none => none
      | some s => waitForConnectResult E (fuel + 1) s

end

def resetSettings (E : Env σ) (s : WiFiManager σ) : WiFiManager σ :=
  let mode_prev := s.mode
  let s := notifyStatus { s with mode := Mode.ERASING }
  let s := call E (Call.wifiDisconnect true) s
  let preferences_was_already_opened := s._preferences_opened
  let s :=
    if ¬ s._preferences_opened then
      { s with preferences := s.preferences.begin_, _preferences_opened := true }
    else s
  let s := call E (Call.wifiBegin "0" "0") s
  let s := { s with preferences := s.preferences.remove "useHostname" }
  let s := { s with preferences := s.preferences.remove "hostname" }
  let s := { s with preferences := s.preferences.remove "ssid" }
  let s := { s with preferences := s.preferences.remove "pass" }
  let s := readHostname E s
  let s :=
    if ¬ preferences_was_already_opened then
      { s with preferences := s.preferences.end_, _preferences_opened := false }
    else s
  notifyStatus { s with mode := mode_prev }

/-! ## Captive portal and the HTTP handlers -/

/-- The loop of `isIp` over the characters of the header. -/
def isIpLoop : List Char → Bool
  | [] => true
  | c :: rest => if c ≠ '.' ∧ (c < '0' ∨ c > '9') then false else isIpLoop rest

def isIp (str : String) : Bool := isIpLoop str.toList

def toStringIp (ip : Nat) : String :=
  let res := (List.range 3).foldl
    (fun res i => res ++ (toString ((ip >>> (8 * i)) &&& 0xFF) ++ ".")) ""
  res ++ toString ((ip >>> (8 * 3)) &&& 0xFF)

def captivePortal (E : Env σ) (req : Request) (s : WiFiManager σ) : Bool × WiFiManager σ :=
  if ¬ isIp req.hostHeader then
    let s := call E
      (Call.sendHeader "Location" (Text.lit ("http://" ++ toStringIp (E.softAPIP s.env)))) s
    let s := call E (Call.send 302 "text/plain" (Text.lit "")) s
    let s := call E Call.clientStop s
    (true, s)
  else (false, s)

/-- Send a rendered page: the `Content-Length` header, then the page. -/
def sendPage (E : Env σ) (name : String) (s : WiFiManager σ) : WiFiManager σ :=
  let s := call E (Call.sendHeader "Content-Length" (Text.pageLength name)) s
  call E (Call.send 200 "text/html" (Text.page name)) s

/-- The handler `handleWifi`, without the page it renders: the sorting,
de-duplication and filtering of the scan results only decide the text of the
page. -/
def handleWifi (E : Env σ) (req : Request) (scan : Bool) (s : WiFiManager σ) : WiFiManager σ :=
  let c := captivePortal E req s
  if c.1 then c.2
  else
    let s := c.2
    let r := E.scanComplete s.env
    let n := r.1
    let s := { s with env := r.2 }
    let scanBusy := decide (n < 0)
    let s := if n < 0 then s else { s with n_wifi_networks := n }
    let s :=
      if scan ∧ scanBusy = false then
        let s := call E (Call.wifiDisconnect true) s
        let s := { s with n_wifi_networks := 0 }
        call E (Call.wifiScanNetworks true) s
      else s
    sendPage E "wifi" s

/-- The copy `value.toCharArray(_value, _length)` of the Arduino `String`:
nothing happens without a buffer or with size 0, else `strncpy` copies the
first `_length - 1` bytes of the C string of `value` and a NUL ends them. -/
def toCharArray (value : String) (p : WiFiManagerParameter) : WiFiManagerParameter :=
  if p._value.isNone ∨ p._length = 0 then p
  else { p with _value := some ((bytes (c_str value)).take (p._length - 1)) }

/-- The handler `handleWifiSave`.  Every argument goes through `c_str()`
before it is stored, and the comparison of a `String` with `""` is a `strcmp`
on its C string. -/
def handleWifiSave (E : Env σ) (req : Request) (s : WiFiManager σ) : WiFiManager σ :=
  let s := { s with _ssid := some (c_str (req.arg "s")) }
  let s := { s with _pass := c_str (req.arg "p") }
  let s := { s with preferences := s.preferences.putString "ssid" (s._ssid.getD "") }
  let s := { s with preferences := s.preferences.putString "pass" s._pass }
  let params := s._params.map (fun p => toCharArray (c_str (req.arg (p._id.getD ""))) p)
  let s := { s with _params := params }
  let s :=
    if c_str (req.arg "ip") ≠ "" then
      { s with _sta_static_ip := E.ipFromString s._sta_static_ip (c_str (req.arg "ip")) }
    else s
  let s :=
    if c_str (req.arg "gw") ≠ "" then
      { s with _sta_static_gw := E.ipFromString s._sta_static_gw (c_str (req.arg "gw")) }
    else s
  let s :=
    if c_str (req.arg "sn") ≠ "" then
      { s with _sta_static_sn := E.ipFromString s._sta_static_sn (c_str (req.arg "sn")) }
    else s
  let s := sendPage E "wifisave" s
  { s with connect := true }

def handleInfo (E : Env σ) (s : WiFiManager σ) : WiFiManager σ :=
  sendPage E "info" s

/-- The handler `handleReset`: the device restarts, the call does not return. -/
def handleReset (E : Env σ) (s : WiFiManager σ) : Option (WiFiManager σ) :=
  let s := sendPage E "reset" s
  let s := call E (Call.delay 5000) s
  let _s := call E Call.espRestart s
  none

def handleChangeName (E : Env σ) (_showError : Bool) (s : WiFiManager σ) : WiFiManager σ :=
  sendPage E "changename" s

/-- The loop of `checkName` over the characters of the name. -/
def checkNameLoop : List Char → Bool
  | [] => true
  | c :: rest =>
    if ¬ ((('a' ≤ c) ∧ (c ≤ 'z')) ∨ (('A' ≤ c) ∧ (c ≤ 'Z')) ∨
          (('0' ≤ c) ∧ (c ≤ '9')) ∨ c = '-')
    then false
    else checkNameLoop rest

def checkName (name : String) : Bool :=
  if name.length = 0 ∨ name.length ≥ 64 then false
  else checkNameLoop name.toList

def handleSaveName (E : Env σ) (req : Request) (s : WiFiManager σ) : WiFiManager σ :=
  let tmp := req.arg "n"
  if checkName tmp then
    let s := { s with preferences := s.preferences.putString "hostname" tmp }
    let s := { s with preferences := s.preferences.putBool "useHostname" true }
    let s := { s with _hostname := tmp }
    handleWifi E req false s
  else handleChangeName E true s

/-- The handler `handleNotFound`.  The loop over the arguments counts in a
`uint8_t`: with 256 arguments or more the counter wraps before it reaches
`server->args()` and the loop does not end. -/
def handleNotFound (E : Env σ) (req : Request) (s : WiFiManager σ) :
    Option (WiFiManager σ) :=
  let c := captivePortal E req s
  if c.1 then some c.2
  else if req.args.length ≥ 256 then none
  else
    let s := c.2
    let s := call E
      (Call.sendHeader "Cache-Control" (Text.lit "no-cache, no-store, must-revalidate")) s
    let s := call E (Call.sendHeader "Pragma" (Text.lit "no-cache")) s
    let s := call E (Call.sendHeader "Expires" (Text.lit "-1")) s
    let s := call E (Call.sendHeader "Content-Length" (Text.pageLength "notfound")) s
    some (call E (Call.send 404 "text/plain" (Text.page "notfound")) s)

/-- The routes registered by `setupConfigPortal`. -/
def dispatch (E : Env σ) (req : Request) (s : WiFiManager σ) : Option (WiFiManager σ) :=
  if req.uri = "/" then some (handleWifi E req false s)
  else if req.uri = "/wifi" then some (handleWifi E req true s)
  else if req.uri = "/0wifi" then some (handleWifi E req false s)
  else if req.uri = "/wifisave" then some (handleWifiSave E req s)
  else if req.uri = "/i" then some (handleInfo E s)
  else if req.uri = "/r" then handleReset E s
  else if req.uri = "/changename" then some (handleChangeName E false s)
  else if req.uri = "/savename" then some (handleSaveName E req s)
  else if req.uri = "/fwlink" then some (handleWifi E req false s)
  else handleNotFound E req s

/-- The call `server->handleClient()`: serve the pending request, if any. -/
def handleClient (E : Env σ) (s : WiFiManager σ) : Option (WiFiManager σ) :=
  let r := E.nextRequest s.env
  let s := { s with env := r.2 }
  match r.1 with
  | none => some s
  | some req => dispatch E req s

/-! ## The config portal -/

def setupConfigPortal (E : Env σ) (s : WiFiManager σ) : WiFiManager σ :=
  let s := call E Call.dnsReset s
  let s := call E Call.serverReset s
  let m := millis E s
  let s := { m.2 with _configPortalStart := m.1 }
  let s : WiFiManager σ :=
    match s._apPassword with
    | some pw => if strlen pw < 8 ∨ strlen pw > 63 then { s with _apPassword := none } else s
    | none => s
  let s :=
    if s._ap_static_ip ≠ 0 then
      call E (Call.wifiSoftAPConfig s._ap_static_ip s._ap_static_gw s._ap_static_sn) s
    else s
  let s := call E (Call.wifiSoftAP s._apName s._apPassword) s
  let s := call E (Call.delay 500) s
  let s := call E Call.dnsStart s
  call E Call.serverBegin s

/-- One pass through the body of the `while (1)` of `startConfigPortal`:
`true` when the pass leaves the loop with `break`. -/
def portalIteration (E : Env σ) (fuel : Nat) (s : WiFiManager σ) :
    Option (Bool × WiFiManager σ) :=
  let t := configPortalHasTimeout E s
  if t.1 then some (true, t.2)
  else
    let s := call E Call.dnsProcessNextRequest t.2
    match handleClient E s with
    | none => none
    | some s =>
      if s.connect then
        let s := { s with connect := false }
        let s := call E (Call.delay 2000) s
        let s := notifyStatus { s with mode := Mode.CONNECTING }
        match connectWifi E fuel (s._ssid.getD "") s._pass s with
        | none => none
        | some (connRes, s) =>
          if connRes ≠ WlStatus.WL_CONNECTED then
            let s := notifyStatus { s with mode := Mode.DISCONNECTED }
            if s._shouldBreakAfterConfig then some (true, notifySave s)
            else some (false, call E Call.yield s)
          else
            let s := call E (Call.wifiMode WifiMode.WIFI_STA) s
            let s := notifyStatus { s with mode := Mode.CONNECTED }
            some (true, notifySave s)
      else some (false, call E Call.yield s)

/-- The `while (1)` of `startConfigPortal`, at most `n` passes. -/
def portalLoop (E : Env σ) (fuel : Nat) : Nat → WiFiManager σ → Option (WiFiManager σ)
  | 0, _ => none
  | n + 1, s =>
    match portalIteration E fuel s with
    | none => none
    | some (true, s) => some s
    | some (false, s) => portalLoop E fuel n s

def startConfigPortal (E : Env σ) (fuel : Nat) (apName : String) (apPassword : Option String)
    (s : WiFiManager σ) : Option (Bool × WiFiManager σ) :=
  let s := call E (Call.wifiDisconnect true) s
  let s := notifyStatus { s with mode := Mode.SCANNING }
  let s := call E (Call.wifiScanNetworks false) s
  let s := { s with n_wifi_networks := E.scanResult s.env }
  let s := call E (Call.wifiMode WifiMode.WIFI_AP_STA) s
  let s := notifyStatus { s with mode := Mode.PORTAL }
  let s := { s with _apName := apName, _apPassword := apPassword }
  let s := if s._apcallback then { s with trace := s.trace ++ [Event.apCallback] } else s
  let s := { s with connect := false }
  let s := setupConfigPortal E s
  match portalLoop E fuel fuel s with
  | none => none
  | some s =>
    let s := call E Call.serverReset s
    let s := call E Call.dnsReset s
    let r := wifiStatus E s
    some (decide (r.1 = WlStatus.WL_CONNECTED), r.2)

def autoConnect (E : Env σ) (fuel : Nat) (apName : String) (apPassword : Option String)
    (s : WiFiManager σ) : Option (Bool × WiFiManager σ) :=
  let s := setTimeout DEFAULT_TIMEOUT s
  let s := call E (Call.wifiMode WifiMode.WIFI_STA) s
  let connected : Option (Bool × WiFiManager σ) :=
    if s._ssid.getD "" ≠ "" then
      match connectWifi E fuel (s._ssid.getD "") s._pass s with
      | none => none
      | some (connRes, s) =>
        if connRes = WlStatus.WL_CONNECTED then some (true, s)
        else startConfigPortal E fuel apName apPassword s
    else startConfigPortal E fuel apName apPassword s
  match connected with
  | none => none
  | some (connected, s) =>
    some (connected, { s with preferences := s.preferences.end_, _preferences_opened := false })

/-! ## A stub of the collaborators

The radio answers the `k`-th connection attempt with the status
`outcome k credentials` and keeps it until the next attempt or disconnect;
the clock advances by the argument of `delay` and by `tick` on `yield`;
the HTTP server hands out the queued requests, one per `handleClient`. -/

structure Stub where
  status : WlStatus
  attempts : Nat
  outcome : Nat → Option (String × String) → WlStatus
  clock : Nat
  tick : Nat
  requests : List (Option Request)
  apIP : Nat
  mac : Nat
  networks : Int

def Stub.exec (c : Call) (w : Stub) : Stub :=
  match c with
  | Call.wifiBegin ssid pass =>
    { w with status := w.outcome w.attempts (some (ssid, pass)), attempts := w.attempts + 1 }
  | Call.wifiBeginSaved =>
    { w with status := w.outcome w.attempts none, attempts := w.attempts + 1 }
  | Call.wifiDisconnect _ => { w with status := WlStatus.WL_DISCONNECTED }
  | Call.espWifiDisconnect => { w with status := WlStatus.WL_DISCONNECTED }
  | Call.delay ms => { w with clock := w.clock + ms }
  | Call.yield => { w with clock := w.clock + w.tick }
  | _ => w

def Stub.nextRequest (w : Stub) : Option Request × Stub :=
  match w.requests with
  | [] => (none, w)
  | r :: rest => (r, { w with requests := rest })

/-- The stub as an environment; its `fromString` leaves the address alone. -/
def stubEnv : Env Stub where
  exec := Stub.exec
  wifiStatus := fun w => (w.status, w)
  wifiWaitForConnectResult := fun w => (w.status, w)
  scanResult := fun w => w.networks
  scanComplete := fun w => (w.networks, w)
  millis := fun w => (w.clock % ULONG, w)
  softAPIP := fun w => w.apIP
  efuseMac := fun w => w.mac
  nextRequest := Stub.nextRequest
  ipFromString := fun old _ => old

/-- A radio with no network in range: it never reports a connection. -/
def noNetworkEnv : Env Unit where
  exec := fun _ w => w
  wifiStatus := fun w => (WlStatus.WL_NO_SSID_AVAIL, w)
  wifiWaitForConnectResult := fun w => (WlStatus.WL_NO_SSID_AVAIL, w)
  scanResult := fun _ => 0
  scanComplete := fun w => (0, w)
  millis := fun w => (0, w)
  softAPIP := fun _ => 0
  efuseMac := fun _ => 0
  nextRequest := fun w => (none, w)
  ipFromString := fun old _ => old

/-! ## Observations on the trace -/

/-- The modes delivered to the status callback, in order. -/
def statusModes (t : List Event) : List Mode :=
  t.filterMap (fun e => match e with
    | Event.statusCb m => some m
    | _ => none)

/-- The connection attempts (`WiFi.begin`) and disconnects issued, in order. -/
def radioAttempts (t : List Event) : List Call :=
  t.filterMap (fun e => match e with
    | Event.call (Call.wifiBegin ssid pass) => some (Call.wifiBegin ssid pass)
    | Event.call Call.wifiBeginSaved => some Call.wifiBeginSaved
    | Event.call (Call.wifiDisconnect wifioff) => some (Call.wifiDisconnect wifioff)
    | _ => none)

/-- Number of invocations of the save callback. -/
def saveCount (t : List Event) : Nat :=
  t.count Event.saveCallback

/-! ## Example states -/

/-- A manager on which nothing has been configured, over the world `w`. -/
def exampleManager {σ : Type} (w : σ) : WiFiManager σ :=
  { mode := Mode.IDLE, _statusCb := false, _apcallback := false, _savecallback := false,
    _preferences_opened := false, _ssid := some "", _pass := "", _hostname := "",
    _defaultHostname := "", _appendMacToHostname := false, _apName := "no-net",
    _apPassword := none, _configPortalStart := 0, _configPortalTimeout := 0,
    _connectTimeout := 0, _sta_static_ip := 0, _sta_static_gw := 0, _sta_static_sn := 0,
    _ap_static_ip := 0, _ap_static_gw := 0, _ap_static_sn := 0, _tryWPS := false,
    _shouldBreakAfterConfig := false, connect := false, n_wifi_networks := 0, _params := [],
    preferences := { started := false, entries := [] }, env := w, trace := [] }

/-- A stub world at clock `clock` whose radio answers with `outcome`. -/
def exampleStub (outcome : Nat → Option (String × String) → WlStatus) (clock : Nat)
    (requests : List (Option Request)) : Stub :=
  { status := WlStatus.WL_DISCONNECTED, attempts := 0, outcome := outcome, clock := clock,
    tick := 10, requests := requests, apIP := 0x0104A8C0, mac := 0x123456789ABC, networks := 3 }


/-! ## The network list on the page of `handleWifi`

The part of `handleWifi` that ranks the scan results, hides duplicates and
filters by quality, run when the scan is done and `n_wifi_networks` is not 0.
The members `_removeDuplicateAPs` and `_minimumQuality`, declared in the
header, are parameters.  `indices` is the array `int indices[n_wifi_networks]`. -/

/-- The scan table of the radio, as `WiFi.RSSI(i)`, `WiFi.SSID(i)` and
`WiFi.encryptionType(i) != WIFI_AUTH_OPEN` answer for the argument they are
handed. -/
structure ScanTable where
  RSSI : Int → Int
  SSID : Int → String
  encrypted : Int → Bool

def getRSSIasQuality (RSSI : Int) : Int :=
  if RSSI ≤ -100 then 0
  else if RSSI ≥ -50 then 100
  else 2 * (RSSI + 100)

/-- The exchange `std::swap(indices[i], indices[j])`. -/
def swap (indices : List Int) (i j : Nat) : List Int :=
  (indices.set i (indices.getD j 0)).set j (indices.getD i 0)

/-- The inner loop of the RSSI sort, `for (int j = i + 1; j < n; j++)`. -/
def rssiSortInner (w : ScanTable) (n i : Nat) (indices : List Int) : List Int :=
  (List.range' (i + 1) (n - (i + 1))).foldl
    (fun indices j =>
      if w.RSSI (indices.getD j 0) > w.RSSI (indices.getD i 0) then swap indices i j
      else indices)
    indices

/-- The loop `for (int i = 0; i < n; i++)` of the RSSI sort, on any array. -/
def rssiSortLoop (w : ScanTable) (n : Nat) (indices : List Int) : List Int :=
  (List.range n).foldl (fun indices i => rssiSortInner w n i indices) indices

/-- The RSSI sort: `indices[i] = i` for every `i`, then the sorting loops. -/
def rssiSort (w : ScanTable) (n : Nat) : List Int :=
  rssiSortLoop w n ((List.range n).map Int.ofNat)

/-- The inner loop of the duplicate removal: every later entry whose SSID is
`cssid` gets index -1. -/
def removeDuplicatesInner (w : ScanTable) (n i : Nat) (cssid : String) (indices : List Int) :
    List Int :=
  (List.range' (i + 1) (n - (i + 1))).foldl
    (fun indices j => if cssid = w.SSID (indices.getD j 0) then indices.set j (-1) else indices)
    indices

/-- The duplicate removal, run when `_removeDuplicateAPs` is set. -/
def removeDuplicates (w : ScanTable) (n : Nat) (indices : List Int) : List Int :=
  (List.range n).foldl
    (fun indices i =>
      if indices.getD i 0 = -1 then indices
      else removeDuplicatesInner w n i (w.SSID (indices.getD i 0)) indices)
    indices

/-- One network on the page: what replaces `{v}`, `{r}` and `{i}` in
`WM_HTTP_ITEM`. -/
structure Item where
  v : String
  r : Int
  i : String
  deriving DecidableEq, Repr

/-- The display loop: the items appended to the page, in order. -/
def displayNetworks (w : ScanTable) (n : Nat) (minimumQuality : Int) (indices : List Int) :
    List Item :=
  (List.range n).foldl
    (fun page i =>
      if indices.getD i 0 = -1 then page
      else
        let quality := getRSSIasQuality (w.RSSI (indices.getD i 0))
        if minimumQuality = -1 ∨ minimumQuality < quality then
          page ++ [{ v := w.SSID (indices.getD i 0), r := quality,
                     i := if w.encrypted (indices.getD i 0) then "l" else "" }]
        else page)
    []

/-- The networks listed on the page for `n_wifi_networks = n`.  For a negative
`n` the source declares an array of negative size; here the loops do not run. -/
def networkList (w : ScanTable) (n : Int) (removeDuplicateAPs : Bool) (minimumQuality : Int) :
    List Item :=
  if n = 0 then []
  else
    let indices := rssiSort w n.toNat
    let indices := if removeDuplicateAPs then removeDuplicates w n.toNat indices else indices
    displayNetworks w n.toNat minimumQuality indices
/-! ## Auxiliary definitions for the proofs -/

/-- The mode assignment at the end of `connectWifi`: CONNECTED or
DISCONNECTED when the radio reports one of them, unchanged otherwise. -/
def modeFromStatus (E : Env σ) (s : WiFiManager σ) : WiFiManager σ :=
  let r1 := wifiStatus E s
  if r1.1 = WlStatus.WL_CONNECTED then { r1.2 with mode := Mode.CONNECTED }
  else
    let r2 := wifiStatus E r1.2
    if r2.1 = WlStatus.WL_DISCONNECTED then { r2.2 with mode := Mode.DISCONNECTED }
    else r2.2

/-- The end of `connectWifi`, after the attempts: the mode is set from the
radio status, the callback is notified, and WPS is tried if asked for. -/
def connectTail (E : Env σ) (fuel : Nat) (pass : String) (connRes : WlStatus)
    (s : WiFiManager σ) : Option (WlStatus × WiFiManager σ) :=
  let s := notifyStatus (modeFromStatus E s)
  if s._tryWPS ∧ connRes ≠ WlStatus.WL_CONNECTED ∧ pass = "" then
    waitForConnectResult E (fuel + 1) (startWPS s)
  else some (connRes, s)

/-- The stub state after `k` polling delays of 100 ms. -/
def afterDelays (k : Nat) (s : WiFiManager Stub) : WiFiManager Stub :=
  { s with env := { s.env with clock := s.env.clock + 100 * k },
           trace := s.trace ++ List.replicate k (Event.call (Call.delay 100)) }

/-- What a wait leaves of a stub state: the mode, the clock and the trace may
have changed, the trace by events that are neither attempts nor disconnects. -/
def Waited (s s' : WiFiManager Stub) : Prop :=
  ∃ (m : Mode) (c : Nat) (evs : List Event),
    s' = { s with mode := m, env := { s.env with clock := c }, trace := s.trace ++ evs } ∧
    radioAttempts evs = []

/-- The stub state in which `doConnectWifi` starts to wait: `pre` has been
appended to the trace and one attempt with `ssid` and `pass` has been made. -/
def attempted (ssid pass : String) (pre : List Event) (s : WiFiManager Stub) : WiFiManager Stub :=
  { s with env := { s.env with status := s.env.outcome s.env.attempts (some (ssid, pass)),
                               attempts := s.env.attempts + 1 },
           trace := s.trace ++ pre }

/-- The store after the four `remove` calls of `resetSettings`. -/
def erased (p : Preferences) : Preferences :=
  (((p.remove "useHostname").remove "hostname").remove "ssid").remove "pass"

/-- Expiry of the portal as the spec words it: a non-zero timeout, and
`now - portalStartTime > timeout` on unsigned 32-bit values.  This definition
follows the spec, not the code. -/
def specPortalExpired (timeout now portalStartTime : Nat) : Bool :=
  decide (timeout ≠ 0 ∧ (now + ULONG - portalStartTime) % ULONG > timeout)

/-- The character test of `isIp`, as a predicate: a decimal digit or a dot. -/
def digitOrDot (c : Char) : Prop := c = '.' ∨ (¬ c < '0' ∧ ¬ c > '9')

/-- Split a character list at every dot. -/
def splitAtDots : List Char → List (List Char)
  | [] => [[]]
  | c :: rest =>
    if c = '.' then [] :: splitAtDots rest
    else
      match splitAtDots rest with
      | [] => [[c]]
      | part :: parts => (c :: part) :: parts

/-- Decimal value of a digit string. -/
def decimalValue (ds : List Char) : Nat :=
  ds.foldl (fun acc d => 10 * acc + (d.toNat - '0'.toNat)) 0

/-- One octet of a dotted quad: one to three decimal digits, value at most 255. -/
def isOctet (ds : List Char) : Bool :=
  decide (1 ≤ ds.length ∧ ds.length ≤ 3) && ds.all (fun d => decide (¬ d < '0' ∧ ¬ d > '9')) &&
    decide (decimalValue ds ≤ 255)

/-- A syntactically valid IPv4 literal, in the words of the spec: four
decimal octets separated by dots.  This definition follows the spec, not the
code. -/
def isIPv4Literal (str : String) : Bool :=
  let parts := splitAtDots str.toList
  decide (parts.length = 4) && parts.all isOctet

/-! ## Example inputs -/

/-- A stub radio that misses the first attempt and connects on the second,
under a manager with a connect timeout of one second. -/
def retryState : WiFiManager Stub :=
  { exampleManager (exampleStub
      (fun k _ => if k = 0 then WlStatus.WL_NO_SSID_AVAIL else WlStatus.WL_CONNECTED)
      1000 []) with
    _connectTimeout := 1000 }

/-- The same radio and the same connect timeout with the clock at
`2^32 - 1001`: the deadline of the first wait, `start + _connectTimeout`, is
`2^32 - 1`, the greatest value `millis()` can return. -/
def deadlineState : WiFiManager Stub :=
  { exampleManager (exampleStub
      (fun k _ => if k = 0 then WlStatus.WL_NO_SSID_AVAIL else WlStatus.WL_CONNECTED)
      4294966295 []) with
    _connectTimeout := 1000 }

/-- The form submission of the scenario. -/
def homeNetRequest : Request :=
  { uri := "/wifisave", hostHeader := "192.168.4.1", isGet := false,
    args := [("s", "HomeNet"), ("p", "supersecret")] }

/-- The stub of the scenario: the radio reports CONNECTED for the submitted
credentials and `other` for any other attempt; the form is submitted on the
second pass of the service loop. -/
def scenarioStub (other : WlStatus) : Stub :=
  exampleStub
    (fun _ c => if c = some ("HomeNet", "supersecret") then WlStatus.WL_CONNECTED else other)
    1000 [none, some homeNetRequest]

/-- The manager of the scenario before `configure`, over the stub `w`: no
stored credentials, and the portal and save callbacks registered or not. -/
def scenarioManager (w : Stub) (apcb savecb brk : Bool) : WiFiManager Stub :=
  { exampleManager w with
    _apcallback := apcb, _savecallback := savecb, _shouldBreakAfterConfig := brk }

/-- The end-to-end scenario over the stub `w`: `configure` on an empty store,
then `autoConnect`. -/
def scenarioRun (w : Stub) (hostname apName : String) (apcb savecb brk : Bool) (fuel : Nat) :
    Option (Bool × WiFiManager Stub) :=
  autoConnect stubEnv fuel apName none
    (configure stubEnv hostname true (scenarioManager w apcb savecb brk))

/-- The scenario on the stub `scenarioStub other`, with hostname "esp" and
access point "portal". -/
def scenario (other : WlStatus) (apcb savecb brk : Bool) : Option (Bool × WiFiManager Stub) :=
  scenarioRun (scenarioStub other) "esp" "portal" apcb savecb brk 4

/-- The state of the wrap-around: timeout 5000 ms, the portal opened at clock
value `2^32 - 1000`, and the clock still reads that value. -/
def wrapState : WiFiManager Stub :=
  { exampleManager (exampleStub (fun _ _ => WlStatus.WL_DISCONNECTED) 4294966296 []) with
    _configPortalTimeout := 5000, _configPortalStart := 4294966296 }

/-- A stub on which nobody submits the form and every pass of the service
loop takes 100 s. -/
def idleStub : Stub :=
  { exampleStub (fun _ _ => WlStatus.WL_NO_SSID_AVAIL) 1000 [] with tick := 100000 }

/-- A portal timeout of 60 s is configured, then `configure` and
`autoConnect` are called. -/
def timeoutRun : Option (Bool × WiFiManager Stub) :=
  autoConnect stubEnv 5 "portal" none
    (configure stubEnv "esp" true (setConfigPortalTimeout 60 (exampleManager idleStub)))

/-- A stub radio that has just refused the connection, with a connect timeout
of one second. -/
def refusedState : WiFiManager Stub :=
  { exampleManager ({ exampleStub (fun _ _ => WlStatus.WL_CONNECT_FAILED) 1000 [] with
      status := WlStatus.WL_CONNECT_FAILED }) with
    _connectTimeout := 1000, _statusCb := true, mode := Mode.CONNECTING }

/-- A manager in mode PORTAL with a status callback, whose store is closed
and holds credentials and a custom hostname. -/
def storedState : WiFiManager Stub :=
  { exampleManager (exampleStub (fun _ _ => WlStatus.WL_DISCONNECTED) 0 []) with
    mode := Mode.PORTAL, _statusCb := true,
    preferences := { started := false, entries :=
      [("ssid", PrefValue.str "HomeNet"), ("pass", PrefValue.str "supersecret"),
       ("hostname", PrefValue.str "lamp"), ("useHostname", PrefValue.bool true)] } }

/-- A request whose Host header is `host`. -/
def requestFor (host : String) : Request :=
  { uri := "/", hostHeader := host, isGet := true, args := [] }

/-- A portal that has just been opened at clock 1000 with the timeout of
`autoConnect`, a save callback registered, and the form of the scenario
arriving on the second pass. -/
def openPortal : WiFiManager Stub :=
  { exampleManager (scenarioStub WlStatus.WL_NO_SSID_AVAIL) with
    mode := Mode.PORTAL, _statusCb := true, _savecallback := true,
    _configPortalTimeout := 300000, _configPortalStart := 1000 }

/-- The state in which a pass of the service loop calls `connectWifi`, when
it does: the timeout check did not fire, the HTTP handler returned, and the
`connect` flag was found set. -/
def pendingAttempt (E : Env σ) (s : WiFiManager σ) : Option (WiFiManager σ) :=
  let t := configPortalHasTimeout E s
  if t.1 then none
  else
    match handleClient E (call E Call.dnsProcessNextRequest t.2) with
    | none => none
    | some s =>
      if s.connect then
        some (notifyStatus
          { call E (Call.delay 2000) { s with connect := false } with mode := Mode.CONNECTING })
      else none

/-- A pass of the service loop that does not leave the loop. -/
def ContinuingPass (E : Env σ) (fuel : Nat) (s s' : WiFiManager σ) : Prop :=
  portalIteration E fuel s = some (false, s')

/-- Neither the registration of the save callback nor the number of its
invocations differs between the two states. -/
def SaveFrame (s s' : WiFiManager σ) : Prop :=
  s'._savecallback = s._savecallback ∧ saveCount s'.trace = saveCount s.trace

/-- What a pass of the service loop does with the result of its connection
attempt: `true` when the pass leaves the loop. -/
def afterAttempt (E : Env σ) (connRes : WlStatus) (s : WiFiManager σ) : Bool × WiFiManager σ :=
  if connRes ≠ WlStatus.WL_CONNECTED then
    let s := notifyStatus { s with mode := Mode.DISCONNECTED }
    if s._shouldBreakAfterConfig then (true, notifySave s)
    else (false, call E Call.yield s)
  else
    let s := call E (Call.wifiMode WifiMode.WIFI_STA) s
    let s := notifyStatus { s with mode := Mode.CONNECTED }
    (true, notifySave s)

/-- Between the two states the trace grew by events whose connection
attempts and disconnects are exactly `l`. -/
def Attempts (s s' : WiFiManager σ) (l : List Call) : Prop :=
  ∃ evs, s'.trace = s.trace ++ evs ∧ radioAttempts evs = l

/-! ## Scan tables of the examples -/

/-- A scan table given by the list of the networks found: ssid, signal
strength, encrypted or not.  Outside the list the radio answers with an empty
SSID and strength 0. -/
def tableOf (nets : List (String × Int × Bool)) : ScanTable where
  RSSI := fun i => if 0 ≤ i then ((nets.get? i.toNat).map (fun x => x.2.1)).getD 0 else 0
  SSID := fun i => if 0 ≤ i then ((nets.get? i.toNat).map (fun x => x.1)).getD "" else ""
  encrypted :=
    fun i => if 0 ≤ i then ((nets.get? i.toNat).map (fun x => x.2.2)).getD false else false

/-- Three networks, the first two equally strong and the third stronger. -/
def tiedTable : ScanTable :=
  tableOf [("alpha", -60, true), ("beta", -60, true), ("gamma", -40, false)]

/-- Three networks of the same strength. -/
def equalTable : ScanTable :=
  tableOf [("alpha", -60, true), ("beta", -60, true), ("gamma", -60, false)]

/-- Six networks, two of them found twice. -/
def sixTable : ScanTable :=
  tableOf [("alpha", -60, true), ("beta", -70, true), ("gamma", -40, false),
    ("delta", -65, false), ("alpha", -30, false), ("beta", -80, false)]

/-- One network, of strength -75. -/
def homeTable : ScanTable :=
  tableOf [("HomeNet", -75, true)]

/-! ## Parameters of the examples -/

/-- The request carries no field of this name. -/
def Request.lacks (r : Request) (name : String) : Prop :=
  ∀ kv ∈ r.args, kv.1 ≠ name

/-- A registered parameter `WiFiManagerParameter("server", "mqtt server",
"broker.lan", 12)`. -/
def serverParameter : WiFiManagerParameter :=
  WiFiManagerParameter.init (some "server") "mqtt server" (some "broker.lan") 12 ""

/-- A manager whose only registered parameter is `serverParameter`. -/
def parameterState : WiFiManager Stub :=
  { exampleManager idleStub with _params := [serverParameter] }

/-- A form submission that carries the field of `serverParameter` with a
value as long as the parameter's declared length. -/
def serverRequest : Request :=
  { uri := "/wifisave", hostHeader := "192.168.4.1", isGet := false,
    args := [("s", "HomeNet"), ("p", "supersecret"), ("server", "mqtt.example")] }

/-- A registered parameter `WiFiManagerParameter("name", "name", NULL, 4)`. -/
def nameParameter : WiFiManagerParameter :=
  WiFiManagerParameter.init (some "name") "name" none 4 ""

/-- A form submission whose field "name" holds five two-byte characters. -/
def accentRequest : Request :=
  { uri := "/wifisave", hostHeader := "192.168.4.1", isGet := false,
    args := [("s", "HomeNet"), ("p", "supersecret"), ("name", "ééééé")] }

/-! ## The ranking loops as functions on lists

What the loops of the RSSI sort and of the duplicate removal do to the
elements of `indices`, used to reason about them. -/

/-- One run of the inner loop of the sort, on the elements: `p` is
`indices[i]` and the list holds `indices[i+1..]`; the result is their content
after the loop. -/
def exchangePass (w : ScanTable) : Int → List Int → Int × List Int
  | p, [] => (p, [])
  | p, x :: t =>
    if w.RSSI x > w.RSSI p then ((exchangePass w x t).1, p :: (exchangePass w x t).2)
    else ((exchangePass w p t).1, x :: (exchangePass w p t).2)

/-- The sort on the elements: `k` runs of the inner loop. -/
def exchangeSort (w : ScanTable) : Nat → List Int → List Int
  | 0, l => l
  | _ + 1, [] => []
  | k + 1, p :: t => (exchangePass w p t).1 :: exchangeSort w k (exchangePass w p t).2

/-- What the duplicate removal leaves of the ranked sequence `l` when the
SSIDs in `seen` have occurred before it. -/
def hideSeen (w : ScanTable) : List String → List Int → List Int
  | _, [] => []
  | seen, x :: t =>
    if w.SSID x ∈ seen then (-1) :: hideSeen w seen t
    else x :: hideSeen w (w.SSID x :: seen) t

/-- The ranked sequence `l` with the entries hidden whose SSID is in `seen`. -/
def masked (w : ScanTable) (seen : List String) (l : List Int) : List Int :=
  l.map (fun y => if w.SSID y ∈ seen then -1 else y)

/-- The scan order is already ranked: no network is stronger than an earlier
one. -/
def AlreadyRanked (w : ScanTable) (n : Nat) : Prop :=
  ∀ i j : Nat, i < j → j < n → w.RSSI (Int.ofNat j) ≤ w.RSSI (Int.ofNat i)

/-- What the display loop does with one entry of `indices`. -/
def displayed (w : ScanTable) (minimumQuality : Int) (index : Int) : Option Item :=
  if index = -1 then none
  else if minimumQuality = -1 ∨ minimumQuality < getRSSIasQuality (w.RSSI index) then
    some { v := w.SSID index, r := getRSSIasQuality (w.RSSI index),
           i := if w.encrypted index then "l" else "" }
  else none

/-! # Theorems -/

/-! ## Connecting: retry and recursion -/

theorem afterDelays_zero (s : WiFiManager Stub) : afterDelays 0 s = s := by
  simp [afterDelays]

theorem call_delay_afterDelays (k : Nat) (s : WiFiManager Stub) :
    call stubEnv (Call.delay 100) (afterDelays k s) = afterDelays (k + 1) s := by
  simp [call, stubEnv, Stub.exec, afterDelays, List.replicate_succ', Nat.mul_add, Nat.add_assoc]

theorem waitLoop_stub_step (start fuel j : Nat) (s : WiFiManager Stub) :
    waitLoop stubEnv start (fuel + 1) (afterDelays j s) =
      if (s.env.clock + 100 * j) % ULONG > (start + s._connectTimeout) % ULONG ∨
          (s.env.status = WlStatus.WL_CONNECTED ∨ s.env.status = WlStatus.WL_CONNECT_FAILED)
      then some (s.env.status, afterDelays (j + 1) s)
      else waitLoop stubEnv start fuel (afterDelays (j + 1) s) := by
  rw [← call_delay_afterDelays]
  simp [waitLoop, wifiStatus, millis, stubEnv, afterDelays]

theorem waitLoop_stub_terminal (start fuel : Nat) (s : WiFiManager Stub)
    (h : s.env.status = WlStatus.WL_CONNECTED ∨ s.env.status = WlStatus.WL_CONNECT_FAILED) :
    waitLoop stubEnv start (fuel + 1) s = some (s.env.status, afterDelays 1 s) := by
  have := waitLoop_stub_step start fuel 0 s
  rw [afterDelays_zero] at this
  rw [this, if_pos (Or.inr h)]

theorem waitLoop_stub_timeout (s : WiFiManager Stub)
    (hS : ¬ (s.env.status = WlStatus.WL_CONNECTED ∨ s.env.status = WlStatus.WL_CONNECT_FAILED))
    (hclock : s.env.clock % ULONG + s._connectTimeout + 100 < ULONG) :
    ∀ fuel j : Nat, j ≤ s._connectTimeout / 100 + 1 → s._connectTimeout / 100 + 2 ≤ fuel + j →
      waitLoop stubEnv (s.env.clock % ULONG) fuel (afterDelays j s) =
        some (s.env.status, afterDelays (s._connectTimeout / 100 + 2) s) := by
  intro fuel
  induction fuel with
  | zero => intro j h1 h2; omega
  | succ fuel ih =>
    intro j h1 h2
    have hmod : (s.env.clock + 100 * j) % ULONG = s.env.clock % ULONG + 100 * j := by
      have hlt : s.env.clock % ULONG + 100 * j < ULONG := by omega
      conv_lhs => rw [← Nat.div_add_mod s.env.clock ULONG]
      rw [Nat.add_assoc, Nat.mul_add_mod, Nat.mod_eq_of_lt hlt]
    have hdl : (s.env.clock % ULONG + s._connectTimeout) % ULONG
        = s.env.clock % ULONG + s._connectTimeout := Nat.mod_eq_of_lt (by omega)
    rw [waitLoop_stub_step, hmod, hdl]
    by_cases hj : j = s._connectTimeout / 100 + 1
    · have hto : s.env.clock % ULONG + 100 * j > s.env.clock % ULONG + s._connectTimeout := by
        omega
      rw [if_pos (Or.inl hto), hj]
    · have hto : ¬ s.env.clock % ULONG + 100 * j > s.env.clock % ULONG + s._connectTimeout := by
        omega
      rw [if_neg (by tauto)]
      exact ih (j + 1) (by omega) (by omega)

theorem radioAttempts_append (a b : List Event) :
    radioAttempts (a ++ b) = radioAttempts a ++ radioAttempts b := by
  simp [radioAttempts]

theorem radioAttempts_delays (k : Nat) :
    radioAttempts (List.replicate k (Event.call (Call.delay 100))) = [] := by
  induction k with
  | zero => rfl
  | succ k ih => rw [List.replicate_succ]; simp [radioAttempts] at ih ⊢

theorem waited_afterDelays (k : Nat) (s : WiFiManager Stub) : Waited s (afterDelays k s) :=
  ⟨s.mode, s.env.clock + 100 * k, _, rfl, radioAttempts_delays k⟩

theorem waited_notifyStatus (s s' : WiFiManager Stub) (m : Mode) (h : Waited s s') :
    Waited s (notifyStatus { s' with mode := m }) := by
  obtain ⟨m0, c, evs, rfl, hevs⟩ := h
  unfold notifyStatus
  split
  · exact ⟨m, c, evs ++ [Event.statusCb m], by simp,
      by rw [radioAttempts_append, hevs]; rfl⟩
  · exact ⟨m, c, evs, rfl, hevs⟩

theorem waited_notifyStatus_same (s s' : WiFiManager Stub) (h : Waited s s') :
    Waited s (notifyStatus s') :=
  waited_notifyStatus s s' s'.mode h

/-- On the stub, a wait returns the status the radio holds, provided the
status is final, or no connect timeout is set, or the clock does not wrap
during the wait and the fuel covers the polls. -/
theorem waitForConnectResult_stub (fuel : Nat) (s : WiFiManager Stub)
    (h : s._connectTimeout = 0 ∨
      (s.env.status = WlStatus.WL_CONNECTED ∨ s.env.status = WlStatus.WL_CONNECT_FAILED) ∨
      (s.env.clock % ULONG + s._connectTimeout + 100 < ULONG ∧
        s._connectTimeout / 100 + 1 ≤ fuel)) :
    ∃ s', waitForConnectResult stubEnv (fuel + 1) s = some (s.env.status, s') ∧ Waited s s' := by
  by_cases hT : s._connectTimeout = 0
  · refine ⟨s, ?_, ⟨s.mode, s.env.clock, [], by simp, rfl⟩⟩
    unfold waitForConnectResult
    rw [if_pos hT]
    rfl
  · have hloop : ∃ k, waitLoop stubEnv (s.env.clock % ULONG) (fuel + 1) s
        = some (s.env.status, afterDelays k s) := by
      by_cases hS : s.env.status = WlStatus.WL_CONNECTED ∨
          s.env.status = WlStatus.WL_CONNECT_FAILED
      · exact ⟨1, waitLoop_stub_terminal _ _ _ hS⟩
      · rcases h with h | h | h
        · exact absurd h hT
        · exact absurd h hS
        · have := waitLoop_stub_timeout s hS h.1 (fuel + 1) 0 (by omega) (by omega)
          rw [afterDelays_zero] at this
          exact ⟨_, this⟩
    obtain ⟨k, hk⟩ := hloop
    have hm : millis stubEnv s = (s.env.clock % ULONG, s) := by
      simp [millis, stubEnv]
    simp only [waitForConnectResult, hT, if_false, hm, hk]
    refine ⟨_, rfl, ?_⟩
    split
    · exact waited_notifyStatus _ _ _ (waited_afterDelays k s)
    · split
      · exact waited_notifyStatus _ _ _ (waited_afterDelays k s)
      · exact waited_notifyStatus_same _ _ (waited_afterDelays k s)

theorem doConnectWifi_stub_unfold (fuel count : Nat) (ssid pass : String) (s : WiFiManager Stub)
    (hssid : ssid ≠ "") (h0 : s.env.status ≠ WlStatus.WL_CONNECTED) :
    ∃ pre, radioAttempts pre = [Call.wifiBegin ssid pass] ∧
      doConnectWifi stubEnv (fuel + 1) ssid pass count s =
        waitForConnectResult stubEnv (fuel + 1) (attempted ssid pass pre s) := by
  by_cases hip : s._sta_static_ip = 0
  · refine ⟨[Event.call (Call.wifiSetHostname s._hostname),
      Event.call (Call.wifiBegin ssid pass)], rfl, ?_⟩
    simp [doConnectWifi, hip, wifiStatus, stubEnv, call, Stub.exec, h0, hssid, getHostname,
      attempted]
  · refine ⟨[Event.call (Call.wifiConfig s._sta_static_ip s._sta_static_gw s._sta_static_sn),
      Event.call (Call.wifiSetHostname s._hostname),
      Event.call (Call.wifiBegin ssid pass)], rfl, ?_⟩
    simp [doConnectWifi, hip, wifiStatus, stubEnv, call, Stub.exec, h0, hssid, getHostname,
      attempted]

/-- On the stub, `doConnectWifi` with a non-empty ssid and a radio that is
not connected issues one `WiFi.begin` and returns its outcome. -/
theorem doConnectWifi_stub (fuel count : Nat) (ssid pass : String) (s : WiFiManager Stub)
    (hssid : ssid ≠ "") (h0 : s.env.status ≠ WlStatus.WL_CONNECTED)
    (h : s._connectTimeout = 0 ∨
      (s.env.outcome s.env.attempts (some (ssid, pass)) = WlStatus.WL_CONNECTED ∨
        s.env.outcome s.env.attempts (some (ssid, pass)) = WlStatus.WL_CONNECT_FAILED) ∨
      (s.env.clock % ULONG + s._connectTimeout + 100 < ULONG ∧
        s._connectTimeout / 100 + 1 ≤ fuel)) :
    ∃ (m : Mode) (c : Nat) (evs : List Event),
      doConnectWifi stubEnv (fuel + 1) ssid pass count s =
        some (s.env.outcome s.env.attempts (some (ssid, pass)),
          { s with mode := m,
                   env := { s.env with status := s.env.outcome s.env.attempts (some (ssid, pass)),
                                       attempts := s.env.attempts + 1, clock := c },
                   trace := s.trace ++ evs }) ∧
      radioAttempts evs = [Call.wifiBegin ssid pass] := by
  obtain ⟨pre, hpre, hd⟩ := doConnectWifi_stub_unfold fuel count ssid pass s hssid h0
  obtain ⟨s', hw, m, c, evs, rfl, hevs⟩ :=
    waitForConnectResult_stub fuel (attempted ssid pass pre s) h
  refine ⟨m, c, pre ++ evs, ?_, ?_⟩
  · rw [hd, hw]
    simp [attempted]
  · rw [radioAttempts_append, hpre, hevs]
    rfl

theorem connectWifi_succ (E : Env σ) (fuel : Nat) (ssid pass : String) (s : WiFiManager σ) :
    connectWifi E (fuel + 1) ssid pass s =
      (doConnectWifi E fuel ssid pass 0 s).bind (fun r =>
        (if r.1 ≠ WlStatus.WL_CONNECTED then
          doConnectWifi E fuel ssid pass 1 (call E (Call.wifiDisconnect true) r.2)
         else some r).bind (fun r => connectTail E fuel pass r.1 r.2)) := by
  simp only [connectWifi]
  cases h1 : doConnectWifi E fuel ssid pass 0 s with
  | none => rfl
  | some r =>
    obtain ⟨connRes, s1⟩ := r
    by_cases hc : connRes = WlStatus.WL_CONNECTED
    · subst hc
      simp only [connectTail, modeFromStatus, ne_eq, not_true_eq_false, if_false, Option.some_bind]
    · simp only [ne_eq, hc, not_false_eq_true, if_true, Option.some_bind]
      cases h2 : doConnectWifi E fuel ssid pass 1 (call E (Call.wifiDisconnect true) s1) with
      | none => rfl
      | some r2 => rfl

theorem connectTail_stub_connected (fuel : Nat) (pass : String) (s : WiFiManager Stub)
    (h : s.env.status = WlStatus.WL_CONNECTED) :
    connectTail stubEnv fuel pass WlStatus.WL_CONNECTED s =
      some (WlStatus.WL_CONNECTED, notifyStatus { s with mode := Mode.CONNECTED }) := by
  simp [connectTail, modeFromStatus, wifiStatus, stubEnv, h]

theorem notifyStatus_trace (s : WiFiManager σ) :
    ∃ evs, (notifyStatus s).trace = s.trace ++ evs ∧ radioAttempts evs = [] := by
  unfold notifyStatus
  split
  · exact ⟨[Event.statusCb s.mode], rfl, rfl⟩
  · exact ⟨[], by simp, rfl⟩

/-- Projections of `doConnectWifi_stub`. -/
theorem doConnectWifi_stub_result (fuel count : Nat) (ssid pass : String) (s : WiFiManager Stub)
    (hssid : ssid ≠ "") (h0 : s.env.status ≠ WlStatus.WL_CONNECTED)
    (h : s._connectTimeout = 0 ∨
      (s.env.outcome s.env.attempts (some (ssid, pass)) = WlStatus.WL_CONNECTED ∨
        s.env.outcome s.env.attempts (some (ssid, pass)) = WlStatus.WL_CONNECT_FAILED) ∨
      (s.env.clock % ULONG + s._connectTimeout + 100 < ULONG ∧
        s._connectTimeout / 100 + 1 ≤ fuel)) :
    ∃ (s' : WiFiManager Stub) (evs : List Event),
      doConnectWifi stubEnv (fuel + 1) ssid pass count s =
        some (s.env.outcome s.env.attempts (some (ssid, pass)), s') ∧
      s'.env.status = s.env.outcome s.env.attempts (some (ssid, pass)) ∧
      s'.env.attempts = s.env.attempts + 1 ∧
      s'.env.outcome = s.env.outcome ∧
      s'._connectTimeout = s._connectTimeout ∧
      s'.trace = s.trace ++ evs ∧
      radioAttempts evs = [Call.wifiBegin ssid pass] := by
  obtain ⟨m, c, evs, hd, hevs⟩ := doConnectWifi_stub fuel count ssid pass s hssid h0 h
  exact ⟨_, evs, hd, rfl, rfl, rfl, rfl, rfl, hevs⟩

/-- Away from the wrap-around of the clock the retry works as meant: on a stub
radio that is not connected beforehand, `connectWifi` with a
non-empty ssid, given enough fuel, returns WL_CONNECTED after exactly two
`WiFi.begin` calls with a `WiFi.disconnect(true)` between them when the first
attempt does not reach CONNECTED and the second does, and after a single
`WiFi.begin` and no disconnect when the first attempt already reaches
CONNECTED.  With a connect timeout set and a first attempt that stays
undecided, the 32-bit clock is assumed not to wrap during the first wait. -/
theorem connectWifi_retry_stub (fuel : Nat) (ssid pass : String) (s : WiFiManager Stub)
    (hssid : ssid ≠ "") (h0 : s.env.status ≠ WlStatus.WL_CONNECTED)
    (hfuel : s._connectTimeout / 100 + 3 ≤ fuel)
    (hclock : s._connectTimeout = 0 ∨
      s.env.outcome s.env.attempts (some (ssid, pass)) = WlStatus.WL_CONNECT_FAILED ∨
      s.env.clock % ULONG + s._connectTimeout + 100 < ULONG) :
    (s.env.outcome s.env.attempts (some (ssid, pass)) ≠ WlStatus.WL_CONNECTED →
      s.env.outcome (s.env.attempts + 1) (some (ssid, pass)) = WlStatus.WL_CONNECTED →
      ∃ s' evs, connectWifi stubEnv fuel ssid pass s = some (WlStatus.WL_CONNECTED, s') ∧
        s'.trace = s.trace ++ evs ∧
        radioAttempts evs =
          [Call.wifiBegin ssid pass, Call.wifiDisconnect true, Call.wifiBegin ssid pass]) ∧
    (s.env.outcome s.env.attempts (some (ssid, pass)) = WlStatus.WL_CONNECTED →
      ∃ s' evs, connectWifi stubEnv fuel ssid pass s = some (WlStatus.WL_CONNECTED, s') ∧
        s'.trace = s.trace ++ evs ∧
        radioAttempts evs = [Call.wifiBegin ssid pass]) := by
  obtain ⟨f, rfl⟩ : ∃ f, fuel = f + 2 := ⟨fuel - 2, by omega⟩
  have hw1 : s._connectTimeout = 0 ∨
      (s.env.outcome s.env.attempts (some (ssid, pass)) = WlStatus.WL_CONNECTED ∨
        s.env.outcome s.env.attempts (some (ssid, pass)) = WlStatus.WL_CONNECT_FAILED) ∨
      (s.env.clock % ULONG + s._connectTimeout + 100 < ULONG ∧
        s._connectTimeout / 100 + 1 ≤ f) := by
    rcases hclock with h | h | h
    · exact Or.inl h
    · exact Or.inr (Or.inl (Or.inr h))
    · exact Or.inr (Or.inr ⟨h, by omega⟩)
  obtain ⟨s1, evs1, hd1, hst1, hat1, hout1, -, htr1, hevs1⟩ :=
    doConnectWifi_stub_result f 0 ssid pass s hssid h0 hw1
  constructor
  · intro hfail hok
    have hok' : (call stubEnv (Call.wifiDisconnect true) s1).env.outcome
        (call stubEnv (Call.wifiDisconnect true) s1).env.attempts (some (ssid, pass))
          = WlStatus.WL_CONNECTED := by
      simpa [call, stubEnv, Stub.exec, hat1, hout1] using hok
    obtain ⟨s2, evs2, hd2, hst2, -, -, -, htr2, hevs2⟩ :=
      doConnectWifi_stub_result f 1 ssid pass (call stubEnv (Call.wifiDisconnect true) s1)
        hssid (by simp [call, stubEnv, Stub.exec]) (Or.inr (Or.inl (Or.inl hok')))
    rw [hok'] at hd2 hst2
    obtain ⟨evs3, htr3, hevs3⟩ := notifyStatus_trace { s2 with mode := Mode.CONNECTED }
    refine ⟨notifyStatus { s2 with mode := Mode.CONNECTED },
      evs1 ++ [Event.call (Call.wifiDisconnect true)] ++ evs2 ++ evs3, ?_, ?_, ?_⟩
    · rw [connectWifi_succ, hd1]
      simp only [Option.some_bind, ne_eq, hfail, not_false_eq_true, if_true, hd2]
      exact connectTail_stub_connected _ _ _ hst2
    · rw [htr3]
      simp [htr2, call, htr1]
    · simp only [radioAttempts_append, hevs1, hevs2, hevs3]
      rfl
  · intro hok
    rw [hok] at hd1 hst1
    obtain ⟨evs3, htr3, hevs3⟩ := notifyStatus_trace { s1 with mode := Mode.CONNECTED }
    refine ⟨notifyStatus { s1 with mode := Mode.CONNECTED }, evs1 ++ evs3, ?_, ?_, ?_⟩
    · rw [connectWifi_succ, hd1]
      simp only [Option.some_bind, ne_eq, not_true_eq_false, if_false]
      exact connectTail_stub_connected _ _ _ hst1
    · rw [htr3]
      simp [htr1]
    · simp only [radioAttempts_append, hevs1, hevs3]
      rfl

theorem connectWifi_retry_stub_example :
    ∃ s' evs, connectWifi stubEnv 13 "HomeNet" "supersecret" retryState
        = some (WlStatus.WL_CONNECTED, s') ∧
      s'.trace = retryState.trace ++ evs ∧
      radioAttempts evs = [Call.wifiBegin "HomeNet" "supersecret", Call.wifiDisconnect true,
        Call.wifiBegin "HomeNet" "supersecret"] :=
  (connectWifi_retry_stub 13 "HomeNet" "supersecret" retryState (by decide) (by decide)
    (by decide) (by decide)).1 (by decide) (by decide)

/-- C2, where the code departs from the claim: with an empty ssid argument, a
stored `_ssid` that is the empty string and a radio that never reports
WL_CONNECTED, `connectWifi` does not return, whatever the fuel:
`doConnectWifi` calls `connectWifi(_ssid, _pass)` again at every level. -/
theorem C2_connectWifi_empty_ssid_never_returns (E : Env σ)
    (hE : ∀ w, (E.wifiStatus w).1 ≠ WlStatus.WL_CONNECTED) (fuel : Nat) (pass : String)
    (s : WiFiManager σ) (hs : s._ssid = some "") :
    connectWifi E fuel "" pass s = none := by
  induction fuel using Nat.strong_induction_on generalizing pass s with
  | _ fuel ih =>
    match fuel with
    | 0 => rfl
    | 1 => rfl
    | fuel + 2 =>
      have hd : ∀ (count : Nat) (t : WiFiManager σ), t._ssid = some "" →
          doConnectWifi E (fuel + 1) "" pass count t = none := by
        intro count t ht
        have hrec := ih fuel (by omega)
        have hcfg : (if t._sta_static_ip ≠ 0 then
            call E (Call.wifiConfig t._sta_static_ip t._sta_static_gw t._sta_static_sn) t
            else t)._ssid = some "" := by
          split
          · exact ht
          · exact ht
        simp only [doConnectWifi]
        generalize (if t._sta_static_ip ≠ 0 then
            call E (Call.wifiConfig t._sta_static_ip t._sta_static_gw t._sta_static_sn) t
            else t) = t0 at hcfg ⊢
        have hne : ¬ (wifiStatus E t0).1 = WlStatus.WL_CONNECTED := hE _
        rw [if_neg hne]
        simp [wifiStatus, call, hcfg, hrec]
      rw [connectWifi_succ, hd 0 s hs]
      rfl

theorem C2_connectWifi_empty_ssid_never_returns_witness :
    connectWifi noNetworkEnv 6 "" "secret" { exampleManager () with _ssid := some "" } = none :=
  C2_connectWifi_empty_ssid_never_returns noNetworkEnv (fun _ => by simp [noNetworkEnv]) 6 "secret" _ rfl


/-- With the deadline at `2^32 - 1` and a radio that stays undecided, the
polling loop does not end: no clock value is greater than the deadline. -/
theorem waitLoop_stub_never (start : Nat) (s : WiFiManager Stub)
    (hstart : (start + s._connectTimeout) % ULONG = ULONG - 1)
    (hst : s.env.status = WlStatus.WL_NO_SSID_AVAIL) :
    ∀ (fuel j : Nat), waitLoop stubEnv start fuel (afterDelays j s) = none := by
  intro fuel
  induction fuel with
  | zero => intro j; rfl
  | succ fuel ih =>
    intro j
    rw [waitLoop_stub_step, if_neg]
    · exact ih (j + 1)
    · intro h
      rcases h with h | h | h
      · have := Nat.mod_lt (s.env.clock + 100 * j) (show 0 < ULONG by decide)
        rw [hstart] at h
        omega
      · rw [hst] at h
        exact absurd h (by decide)
      · rw [hst] at h
        exact absurd h (by decide)

/-- After the first `WiFi.begin` of the run from `deadlineState` the wait
does not end. -/
theorem doConnectWifi_deadline (fuel count : Nat) :
    doConnectWifi stubEnv fuel "HomeNet" "supersecret" count deadlineState = none := by
  cases fuel with
  | zero => rfl
  | succ fuel =>
    have hw := waitLoop_stub_never 4294966295
      (call stubEnv (Call.wifiBegin "HomeNet" "supersecret")
        (call stubEnv (Call.wifiSetHostname (getHostname deadlineState)) deadlineState))
      (by decide) rfl (fuel + 1) 0
    rw [afterDelays_zero] at hw
    have hwait : waitForConnectResult stubEnv (fuel + 1)
        (call stubEnv (Call.wifiBegin "HomeNet" "supersecret")
          (call stubEnv (Call.wifiSetHostname (getHostname deadlineState)) deadlineState))
        = none := by
      unfold waitForConnectResult
      rw [if_neg (by decide)]
      have hm : millis stubEnv (call stubEnv (Call.wifiBegin "HomeNet" "supersecret")
          (call stubEnv (Call.wifiSetHostname (getHostname deadlineState)) deadlineState)) =
          (4294966295, call stubEnv (Call.wifiBegin "HomeNet" "supersecret")
            (call stubEnv (Call.wifiSetHostname (getHostname deadlineState)) deadlineState)) :=
        rfl
      simp only [hm, hw]
    have h0 : (if deadlineState._sta_static_ip ≠ 0 then
        call stubEnv (Call.wifiConfig deadlineState._sta_static_ip deadlineState._sta_static_gw
          deadlineState._sta_static_sn) deadlineState
        else deadlineState) = deadlineState := rfl
    have h1 : wifiStatus stubEnv deadlineState = (WlStatus.WL_DISCONNECTED, deadlineState) := rfl
    simp only [doConnectWifi, h0, h1]
    rw [if_neg (by decide), if_pos (by decide)]
    exact hwait

/-- C1, where the code departs from the claim: with a connect timeout of
1000 ms and the clock at `2^32 - 1001`, the deadline of the first wait is
`2^32 - 1`; the radio answers the first attempt with NO_SSID_AVAIL and would
answer the second with CONNECTED, but `connectWifi` does not return, whatever
the fuel, and the second attempt is never made.  With the clock at 1000 the
same radio is connected after `begin`, `disconnect(true)`, `begin`. -/
theorem C1_connectWifi_waits_forever :
    (deadlineState.env.clock % ULONG + deadlineState._connectTimeout) % ULONG = ULONG - 1 ∧
    deadlineState.env.status ≠ WlStatus.WL_CONNECTED ∧
    deadlineState.env.outcome 0 (some ("HomeNet", "supersecret")) ≠ WlStatus.WL_CONNECTED ∧
    deadlineState.env.outcome 1 (some ("HomeNet", "supersecret")) = WlStatus.WL_CONNECTED ∧
    (∀ fuel, connectWifi stubEnv fuel "HomeNet" "supersecret" deadlineState = none) ∧
    (connectWifi stubEnv 13 "HomeNet" "supersecret" retryState).map
        (fun r => (r.1, radioAttempts r.2.trace)) =
      some (WlStatus.WL_CONNECTED, [Call.wifiBegin "HomeNet" "supersecret",
        Call.wifiDisconnect true, Call.wifiBegin "HomeNet" "supersecret"]) := by
  refine ⟨by decide, by decide, by decide, by decide, ?_, by decide!⟩
  intro fuel
  cases fuel with
  | zero => rfl
  | succ fuel =>
    rw [connectWifi_succ, doConnectWifi_deadline]
    rfl

/-! ## The end-to-end scenario and the portal timeout -/

theorem readNetworkCredentials_default (s : WiFiManager σ) (h : s.preferences.lookup "ssid" = none) :
    (readNetworkCredentials s)._ssid = some "ESP" := by
  simp only [readNetworkCredentials, Preferences.getString, h]
  split <;> rfl

/-- C3, where the code departs from the claim: on a store without an ssid key, `configure` loads the
ssid "ESP", and `autoConnect` tries to connect to it, twice, before it starts
the config portal. -/
theorem C3_attempt_without_stored_credentials :
    (exampleManager (scenarioStub WlStatus.WL_NO_SSID_AVAIL)).preferences.lookup "ssid" = none ∧
    (configure stubEnv "esp" true
      (exampleManager (scenarioStub WlStatus.WL_NO_SSID_AVAIL)))._ssid = some "ESP" ∧
    (scenario WlStatus.WL_NO_SSID_AVAIL false false false).map (fun r => r.2.trace.take 10) =
      some [Event.statusCb Mode.CONNECTING,
        Event.call (Call.wifiMode WifiMode.WIFI_STA),
        Event.call (Call.wifiSetHostname "esp-BC9A78563412"),
        Event.call (Call.wifiBegin "ESP" "ESP"),
        Event.call (Call.wifiDisconnect true),
        Event.call (Call.wifiSetHostname "esp-BC9A78563412"),
        Event.call (Call.wifiBegin "ESP" "ESP"),
        Event.statusCb Mode.CONNECTING,
        Event.call (Call.wifiDisconnect true),
        Event.statusCb Mode.SCANNING] := by
  decide!

/-- Whatever portal timeout was configured, `autoConnect` runs as if none
had been: its first statement overwrites the value. -/
theorem autoConnect_overwrites_timeout (E : Env σ) (fuel seconds : Nat) (apName : String)
    (apPassword : Option String) (s : WiFiManager σ) :
    autoConnect E fuel apName apPassword (setConfigPortalTimeout seconds s) =
      autoConnect E fuel apName apPassword s := by
  have h : setTimeout DEFAULT_TIMEOUT (setConfigPortalTimeout seconds s) =
      setTimeout DEFAULT_TIMEOUT s := rfl
  simp only [autoConnect, h]

/-- C7, where the code departs from the claim: after `setConfigPortalTimeout(60)` the portal opened by
`autoConnect` runs with a timeout of 300000 ms: opened at clock 1000, it is
served on three passes (the last two after clock 61000) and is left at clock
301500. -/
theorem C7_configured_timeout_overwritten :
    (setConfigPortalTimeout 60 (exampleManager idleStub))._configPortalTimeout = 60000 ∧
    timeoutRun.map (fun r => (r.2._configPortalStart, r.2._configPortalTimeout,
        r.2.trace.count (Event.call Call.dnsProcessNextRequest), r.2.env.clock)) =
      some (1000, 300000, 3, 301500) := by
  decide!


/-! ## Portal timeout -/

theorem configPortalHasTimeout_spec (E : Env σ) (s : WiFiManager σ) :
    (configPortalHasTimeout E s).1 = true ↔
      s._configPortalTimeout ≠ 0 ∧
        (E.millis s.env).1 % ULONG > (s._configPortalStart + s._configPortalTimeout) % ULONG := by
  unfold configPortalHasTimeout
  by_cases h : s._configPortalTimeout = 0
  · simp [h]
  · simp [h, millis]

theorem configPortalHasTimeout_zero (E : Env σ) (s : WiFiManager σ) (h : s._configPortalTimeout = 0) :
    (configPortalHasTimeout E s).1 = false ∧
      (configPortalHasTimeout E s).2._configPortalStart = (E.millis s.env).1 % ULONG := by
  simp [configPortalHasTimeout, h, millis]

/-- As long as the anchor plus the timeout does not wrap and the clock has
not wrapped since the portal opened, the code and the spec agree. -/
theorem configPortalHasTimeout_without_wrap (E : Env σ) (s : WiFiManager σ)
    (h1 : s._configPortalStart ≤ (E.millis s.env).1 % ULONG)
    (h2 : s._configPortalStart + s._configPortalTimeout < ULONG) :
    (configPortalHasTimeout E s).1 =
      specPortalExpired s._configPortalTimeout ((E.millis s.env).1 % ULONG)
        s._configPortalStart := by
  have hlt : (E.millis s.env).1 % ULONG < ULONG := Nat.mod_lt _ (by decide)
  have hsub : ((E.millis s.env).1 % ULONG + ULONG - s._configPortalStart) % ULONG
      = (E.millis s.env).1 % ULONG - s._configPortalStart := by
    have : (E.millis s.env).1 % ULONG + ULONG - s._configPortalStart
        = ((E.millis s.env).1 % ULONG - s._configPortalStart) + ULONG := by omega
    rw [this, Nat.add_mod_right, Nat.mod_eq_of_lt (by omega)]
  unfold configPortalHasTimeout specPortalExpired
  by_cases h : s._configPortalTimeout = 0
  · simp [h]
  · simp only [h, if_false, millis, hsub, Nat.mod_eq_of_lt h2, ne_eq, not_false_eq_true,
      true_and]
    congr 1
    apply propext
    constructor <;> intro hh <;> omega

/-- C6, where the code departs from the claim: with timeout 5000 ms, the anchor at `2^32 - 1000` and the
clock reading that same value (0 ms elapsed), `configPortalHasTimeout`
reports expiry, although `now - portalStartTime > timeout` is false. -/
theorem C6_expiry_at_wrap_around :
    (stubEnv.millis wrapState.env).1 = 4294966296 ∧
    wrapState._configPortalStart = 4294966296 ∧
    wrapState._configPortalTimeout = 5000 ∧
    specPortalExpired 5000 4294966296 4294966296 = false ∧
    (configPortalHasTimeout stubEnv wrapState).1 = true := by
  decide

/-! ## waitForConnectResult -/

/-- C8, where the code departs from the claim: with a connect timeout configured, a wait whose last
observed radio status is CONNECT_FAILED leaves the mode CONNECTED, the same
mode a last observed status CONNECTED leaves. -/
theorem C8_failed_reported_as_connected (E : Env σ) (fuel : Nat) (s s' : WiFiManager σ)
    (hT : s._connectTimeout ≠ 0)
    (h : waitForConnectResult E fuel s = some (WlStatus.WL_CONNECT_FAILED, s')) :
    s'.mode = Mode.CONNECTED := by
  unfold waitForConnectResult at h
  simp only [hT, if_false] at h
  split at h
  · exact absurd h (by simp)
  · rename_i r t heq
    simp only [Option.some.injEq, Prod.mk.injEq] at h
    obtain ⟨h1, h2⟩ := h
    subst h1
    rw [← h2]
    simp [notifyStatus]
    split <;> rfl

theorem C8_failed_reported_as_connected_witness :
    ∃ s', waitForConnectResult stubEnv 1 refusedState = some (WlStatus.WL_CONNECT_FAILED, s') ∧
      s'.mode = Mode.CONNECTED ∧ statusModes s'.trace = [Mode.CONNECTED] :=
  ⟨(notifyStatus { call stubEnv (Call.delay 100) refusedState with mode := Mode.CONNECTED }),
    rfl,
    C8_failed_reported_as_connected stubEnv 1 refusedState _ (by decide) rfl,
    by decide⟩


/-! ## Credential store -/

theorem Preferences.lookup_remove_self (p : Preferences) (key : String) (h : p.started = true) :
    (p.remove key).lookup key = none := by
  simp [Preferences.remove, Preferences.lookup, h, List.find?_eq_none]

theorem Preferences.lookup_remove_of_none (p : Preferences) (key other : String)
    (h : p.lookup key = none) : (p.remove other).lookup key = none := by
  unfold Preferences.remove
  split
  · simp only [Preferences.lookup, Option.map_eq_none', List.find?_eq_none] at h ⊢
    intro x hx
    exact h x (List.mem_filter.mp hx).1
  · exact h

theorem Preferences.started_remove (p : Preferences) (key : String) :
    (p.remove key).started = p.started := by
  unfold Preferences.remove
  split <;> rfl

theorem statusModes_append (a b : List Event) :
    statusModes (a ++ b) = statusModes a ++ statusModes b := by
  simp [statusModes]

theorem readHostname_mode (E : Env σ) (s : WiFiManager σ) : (readHostname E s).mode = s.mode := by
  unfold readHostname; split
  · rfl
  · split <;> rfl

theorem readHostname_trace (E : Env σ) (s : WiFiManager σ) : (readHostname E s).trace = s.trace := by
  unfold readHostname; split
  · rfl
  · split <;> rfl

theorem readHostname_preferences (E : Env σ) (s : WiFiManager σ) :
    (readHostname E s).preferences = s.preferences := by
  unfold readHostname; split
  · rfl
  · split <;> rfl

theorem readHostname_opened (E : Env σ) (s : WiFiManager σ) :
    (readHostname E s)._preferences_opened = s._preferences_opened := by
  unfold readHostname; split
  · rfl
  · split <;> rfl

theorem readHostname_statusCb (E : Env σ) (s : WiFiManager σ) :
    (readHostname E s)._statusCb = s._statusCb := by
  unfold readHostname; split
  · rfl
  · split <;> rfl

theorem erased_lookup (p : Preferences) (h : p.started = true) :
    (erased p).lookup "hostname" = none ∧ (erased p).lookup "useHostname" = none ∧
    (erased p).lookup "ssid" = none ∧ (erased p).lookup "pass" = none := by
  unfold erased
  have h1 : (p.remove "useHostname").started = true := by rw [Preferences.started_remove, h]
  have h2 : ((p.remove "useHostname").remove "hostname").started = true := by
    rw [Preferences.started_remove, h1]
  have h3 : (((p.remove "useHostname").remove "hostname").remove "ssid").started = true := by
    rw [Preferences.started_remove, h2]
  refine ⟨?_, ?_, ?_, ?_⟩
  · exact Preferences.lookup_remove_of_none _ _ _ (Preferences.lookup_remove_of_none _ _ _
      (Preferences.lookup_remove_self _ _ h1))
  · exact Preferences.lookup_remove_of_none _ _ _ (Preferences.lookup_remove_of_none _ _ _
      (Preferences.lookup_remove_of_none _ _ _ (Preferences.lookup_remove_self _ _ h)))
  · exact Preferences.lookup_remove_of_none _ _ _ (Preferences.lookup_remove_self _ _ h2)
  · exact Preferences.lookup_remove_self _ _ h3

theorem erased_started (p : Preferences) : (erased p).started = p.started := by
  simp [erased, Preferences.started_remove]

theorem resetSettings_preferences (E : Env σ) (s : WiFiManager σ) :
    (resetSettings E s).preferences =
      if s._preferences_opened then erased s.preferences
      else (erased s.preferences.begin_).end_ := by
  cases ho : s._preferences_opened <;> cases hc : s._statusCb <;>
    simp [resetSettings, notifyStatus, call, readHostname_preferences, readHostname_opened,
      readHostname_statusCb, ho, hc, erased]

theorem resetSettings_modes (E : Env σ) (s : WiFiManager σ) (hc : s._statusCb = true) :
    statusModes (resetSettings E s).trace = statusModes s.trace ++ [Mode.ERASING, s.mode] := by
  cases ho : s._preferences_opened <;>
    simp [resetSettings, notifyStatus, call, readHostname_trace, readHostname_opened,
      readHostname_statusCb, readHostname_mode, ho, hc, statusModes_append, statusModes]

/-- C9: `resetSettings` removes the four keys, returns with the mode and the
open/closed state of the store (and the flag that tracks it) as they were
before the call, and the status callback is handed ERASING first and the
pre-call mode last. -/
theorem C9_resetSettings_restores (E : Env σ) (s : WiFiManager σ)
    (hflag : s._preferences_opened = s.preferences.started) :
    (resetSettings E s).preferences.lookup "hostname" = none ∧
    (resetSettings E s).preferences.lookup "useHostname" = none ∧
    (resetSettings E s).preferences.lookup "ssid" = none ∧
    (resetSettings E s).preferences.lookup "pass" = none ∧
    (resetSettings E s).mode = s.mode ∧
    (resetSettings E s).preferences.started = s.preferences.started ∧
    (resetSettings E s)._preferences_opened = s._preferences_opened ∧
    (s._statusCb = true →
      statusModes (resetSettings E s).trace = statusModes s.trace ++ [Mode.ERASING, s.mode]) := by
  have hp := resetSettings_preferences E s
  have hl : ∀ key, (resetSettings E s).preferences.lookup key =
      (erased (if s._preferences_opened then s.preferences else s.preferences.begin_)).lookup key := by
    intro key
    rw [hp]
    cases s._preferences_opened <;> simp [Preferences.lookup, Preferences.end_]
  have hst : (if s._preferences_opened then s.preferences else s.preferences.begin_).started
      = true := by
    cases ho : s._preferences_opened
    · simp [Preferences.begin_]
    · simp [← hflag, ho]
  obtain ⟨e1, e2, e3, e4⟩ := erased_lookup _ hst
  refine ⟨by rw [hl, e1], by rw [hl, e2], by rw [hl, e3], by rw [hl, e4], ?_, ?_, ?_, ?_⟩
  · cases ho : s._preferences_opened <;> cases hc : s._statusCb <;>
      simp [resetSettings, notifyStatus, call, readHostname_mode, readHostname_opened,
        readHostname_statusCb, ho, hc]
  · rw [hp]
    cases ho : s._preferences_opened
    · simp [Preferences.end_, ← hflag, ho]
    · simp [erased_started]
  · cases ho : s._preferences_opened <;> cases hc : s._statusCb <;>
      simp [resetSettings, notifyStatus, call, readHostname_mode, readHostname_opened,
        readHostname_statusCb, ho, hc]
  · exact resetSettings_modes E s

theorem C9_resetSettings_restores_witness :
    storedState.preferences.lookup "ssid" = some (PrefValue.str "HomeNet") ∧
    (resetSettings stubEnv storedState).preferences.lookup "ssid" = none ∧
    (resetSettings stubEnv storedState).mode = Mode.PORTAL ∧
    (resetSettings stubEnv storedState).preferences.started = false ∧
    statusModes (resetSettings stubEnv storedState).trace = [Mode.ERASING, Mode.PORTAL] :=
  have h := C9_resetSettings_restores stubEnv storedState rfl
  ⟨by decide, h.2.2.1, h.2.2.2.2.1, h.2.2.2.2.2.1, h.2.2.2.2.2.2.2 rfl⟩


/-! ## Captive redirect -/

theorem isIpLoop_iff (l : List Char) : isIpLoop l = true ↔ ∀ c ∈ l, digitOrDot c := by
  induction l with
  | nil => simp [isIpLoop]
  | cons c rest ih =>
    simp only [isIpLoop, List.mem_cons, forall_eq_or_imp]
    by_cases hc : c ≠ '.' ∧ (c < '0' ∨ c > '9')
    · rw [if_pos hc]
      constructor
      · intro h; exact absurd h (by simp)
      · intro h
        rcases h.1 with h1 | h1
        · exact absurd h1 hc.1
        · rcases hc.2 with h2 | h2
          · exact absurd h2 h1.1
          · exact absurd h2 h1.2
    · rw [if_neg hc, ih]
      constructor
      · intro h
        refine ⟨?_, h⟩
        by_cases hd : c = '.'
        · exact Or.inl hd
        · right
          constructor
          · intro h1; exact hc ⟨hd, Or.inl h1⟩
          · intro h1; exact hc ⟨hd, Or.inr h1⟩
      · intro h; exact h.2

theorem mem_splitAtDots (l : List Char) :
    ∀ c ∈ l, c = '.' ∨ ∃ part ∈ splitAtDots l, c ∈ part := by
  induction l with
  | nil => simp
  | cons d rest ih =>
    intro c hc
    by_cases hdot : c = '.'
    · exact Or.inl hdot
    · right
      simp only [splitAtDots]
      rcases List.mem_cons.mp hc with h | h
      · subst h
        rw [if_neg hdot]
        split <;> simp
      · rcases ih c h with h1 | ⟨part, hp, hcp⟩
        · exact absurd h1 hdot
        · split
          · exact ⟨part, List.mem_cons_of_mem _ hp, hcp⟩
          · split
            · rename_i heq; rw [heq] at hp; simp at hp
            · rename_i p ps heq
              rw [heq] at hp
              rcases List.mem_cons.mp hp with h2 | h2
              · exact ⟨d :: p, List.mem_cons_self _ _,
                  by rw [← h2]; exact List.mem_cons_of_mem _ hcp⟩
              · exact ⟨part, List.mem_cons_of_mem _ h2, hcp⟩

theorem isIp_of_isIPv4Literal (str : String) (h : isIPv4Literal str = true) : isIp str = true := by
  unfold isIp
  rw [isIpLoop_iff]
  intro c hc
  simp only [isIPv4Literal, Bool.and_eq_true, List.all_eq_true] at h
  rcases mem_splitAtDots _ c hc with h1 | ⟨part, hp, hcp⟩
  · exact Or.inl h1
  · have := h.2 part hp
    simp only [isOctet, Bool.and_eq_true, List.all_eq_true, decide_eq_true_eq] at this
    exact Or.inr (this.1.2 c hcp)

theorem captivePortal_fires_iff (E : Env σ) (req : Request) (s : WiFiManager σ) :
    (captivePortal E req s).1 = true ↔ ∃ c ∈ req.hostHeader.toList, ¬ digitOrDot c := by
  have h := isIpLoop_iff req.hostHeader.toList
  unfold captivePortal
  cases hip : isIp req.hostHeader
  · have hfire : ∃ c ∈ req.hostHeader.toList, ¬ digitOrDot c := by
      by_contra hne
      have hall : isIpLoop req.hostHeader.toList = true := by
        apply h.mpr
        intro c hc
        by_contra hd
        exact hne ⟨c, hc, hd⟩
      unfold isIp at hip
      rw [hall] at hip
      exact absurd hip (by simp)
    constructor
    · intro _; exact hfire
    · intro _; rfl
  · have hall := h.mp hip
    constructor
    · intro hf; exact absurd hf (by simp)
    · rintro ⟨c, hc, hn⟩
      exact absurd (hall c hc) hn

/-- C10, counterexample: the Host header "1.2.3.4.5" is not a syntactically
valid IPv4 literal, yet `captivePortal` does not redirect it: it returns
false and sends nothing. -/
theorem C10_counterexample :
    isIPv4Literal "1.2.3.4.5" = false ∧
    (captivePortal stubEnv (requestFor "1.2.3.4.5") storedState).1 = false ∧
    (captivePortal stubEnv (requestFor "1.2.3.4.5") storedState).2.trace = storedState.trace := by
  decide

/-- C10, as amended: `captivePortal` redirects exactly when the Host header
holds a character that is neither a decimal digit nor a dot.  When it does,
it sends the Location header with the portal address, the 302 with an empty
body, stops the client and returns true; when it does not, it returns false
and leaves the state as it was.  Every syntactically valid IPv4 literal
passes through, "192.0.2.5" among them; "config.device.local" is redirected. -/
theorem C10_captivePortal_digits_and_dots (E : Env σ) (req : Request) (s : WiFiManager σ) :
    ((captivePortal E req s).1 = true ↔ ∃ c ∈ req.hostHeader.toList, ¬ digitOrDot c) ∧
    ((captivePortal E req s).1 = true →
      (captivePortal E req s).2.trace = s.trace ++
        [Event.call (Call.sendHeader "Location"
            (Text.lit ("http://" ++ toStringIp (E.softAPIP s.env)))),
         Event.call (Call.send 302 "text/plain" (Text.lit "")),
         Event.call Call.clientStop]) ∧
    ((captivePortal E req s).1 = false → (captivePortal E req s).2 = s) ∧
    (isIPv4Literal req.hostHeader = true → (captivePortal E req s).1 = false) ∧
    (captivePortal E { req with hostHeader := "192.0.2.5" } s).1 = false ∧
    (captivePortal E { req with hostHeader := "config.device.local" } s).1 = true := by
  refine ⟨captivePortal_fires_iff E req s, ?_, ?_, ?_, ?_, ?_⟩
  · unfold captivePortal
    split
    · intro _; simp [call]
    · intro hf; exact absurd hf (by simp)
  · unfold captivePortal
    split
    · intro hf; exact absurd hf (by simp)
    · intro _; rfl
  · intro hv
    have := isIp_of_isIPv4Literal _ hv
    simp [captivePortal, this]
  · have : isIp "192.0.2.5" = true := by decide
    simp [captivePortal, this]
  · have : isIp "config.device.local" = false := by decide
    simp [captivePortal, this]

theorem C10_captivePortal_digits_and_dots_witness :
    isIPv4Literal "192.0.2.5" = true ∧
    (captivePortal stubEnv (requestFor "192.0.2.5") storedState).1 = false ∧
    (captivePortal stubEnv (requestFor "config.device.local") storedState).2.trace =
      storedState.trace ++
        [Event.call (Call.sendHeader "Location" (Text.lit "http://192.168.4.1")),
         Event.call (Call.send 302 "text/plain" (Text.lit "")),
         Event.call Call.clientStop] :=
  ⟨by decide,
   (C10_captivePortal_digits_and_dots stubEnv (requestFor "192.0.2.5") storedState).2.2.2.1
     (by decide),
   (C10_captivePortal_digits_and_dots stubEnv (requestFor "config.device.local")
     storedState).2.1 (by decide)⟩

/-! ## The service loop -/

theorem SaveFrame.refl (s : WiFiManager σ) : SaveFrame s s := ⟨rfl, rfl⟩

theorem SaveFrame.trans {a b c : WiFiManager σ} (h1 : SaveFrame a b) (h2 : SaveFrame b c) :
    SaveFrame a c :=
  ⟨h2.1.trans h1.1, h2.2.trans h1.2⟩

theorem saveFrame_call (E : Env σ) (c : Call) (s : WiFiManager σ) : SaveFrame s (call E c s) := by
  simp [SaveFrame, call, saveCount]

theorem saveFrame_notifyStatus (s : WiFiManager σ) : SaveFrame s (notifyStatus s) := by
  unfold notifyStatus
  split
  · simp [SaveFrame, saveCount]
  · exact SaveFrame.refl s

/-- A state that differs only in fields other than `_savecallback` and
`trace` is in the frame. -/
theorem saveFrame_of_eq (s s' : WiFiManager σ) (h1 : s'._savecallback = s._savecallback)
    (h2 : s'.trace = s.trace) : SaveFrame s s' :=
  ⟨h1, by rw [h2]⟩

theorem saveFrame_wifiStatus (E : Env σ) (s : WiFiManager σ) : SaveFrame s (wifiStatus E s).2 :=
  saveFrame_of_eq _ _ rfl rfl

theorem saveFrame_millis (E : Env σ) (s : WiFiManager σ) : SaveFrame s (millis E s).2 :=
  saveFrame_of_eq _ _ rfl rfl

theorem saveFrame_configPortalHasTimeout (E : Env σ) (s : WiFiManager σ) :
    SaveFrame s (configPortalHasTimeout E s).2 := by
  unfold configPortalHasTimeout
  split <;> exact saveFrame_of_eq _ _ rfl rfl

theorem saveFrame_sendPage (E : Env σ) (name : String) (s : WiFiManager σ) :
    SaveFrame s (sendPage E name s) :=
  (saveFrame_call E _ s).trans (saveFrame_call E _ _)

theorem saveFrame_captivePortal (E : Env σ) (req : Request) (s : WiFiManager σ) :
    SaveFrame s (captivePortal E req s).2 := by
  unfold captivePortal
  split
  · exact ((saveFrame_call E _ s).trans (saveFrame_call E _ _)).trans (saveFrame_call E _ _)
  · exact SaveFrame.refl s

theorem saveFrame_handleWifi (E : Env σ) (req : Request) (scan : Bool) (s : WiFiManager σ) :
    SaveFrame s (handleWifi E req scan s) := by
  have hc := saveFrame_captivePortal E req s
  simp only [handleWifi]
  split
  · exact hc
  · refine hc.trans ?_
    refine SaveFrame.trans ?_ (saveFrame_sendPage E _ _)
    split_ifs <;> simp [SaveFrame, call, saveCount]

theorem saveFrame_handleWifiSave (E : Env σ) (req : Request) (s : WiFiManager σ) :
    SaveFrame s (handleWifiSave E req s) := by
  by_cases h1 : c_str (req.arg "ip") = "" <;> by_cases h2 : c_str (req.arg "gw") = "" <;>
    by_cases h3 : c_str (req.arg "sn") = "" <;>
    simp [handleWifiSave, h1, h2, h3, SaveFrame, sendPage, call, saveCount]

theorem saveFrame_handleNotFound (E : Env σ) (req : Request) (s s' : WiFiManager σ)
    (h : handleNotFound E req s = some s') : SaveFrame s s' := by
  have hc := saveFrame_captivePortal E req s
  simp only [handleNotFound] at h
  split_ifs at h
  · simp only [Option.some.injEq] at h
    subst h
    exact hc
  · simp only [Option.some.injEq] at h
    subst h
    exact hc.trans
      (((((saveFrame_call E _ _).trans (saveFrame_call E _ _)).trans
        (saveFrame_call E _ _)).trans (saveFrame_call E _ _)).trans (saveFrame_call E _ _))

theorem saveFrame_handleSaveName (E : Env σ) (req : Request) (s : WiFiManager σ) :
    SaveFrame s (handleSaveName E req s) := by
  simp only [handleSaveName]
  split
  · exact SaveFrame.trans (saveFrame_of_eq _ _ rfl rfl) (saveFrame_handleWifi E req false _)
  · exact saveFrame_sendPage E _ s

theorem saveFrame_dispatch (E : Env σ) (req : Request) (s s' : WiFiManager σ)
    (h : dispatch E req s = some s') : SaveFrame s s' := by
  unfold dispatch at h
  split_ifs at h <;> first
    | (simp only [Option.some.injEq] at h; subst h
       first
        | exact saveFrame_handleWifi E req _ s
        | exact saveFrame_handleWifiSave E req s
        | exact saveFrame_sendPage E _ s
        | exact saveFrame_handleSaveName E req s)
    | (simp [handleReset] at h)
    | exact saveFrame_handleNotFound E req s s' h

theorem saveFrame_handleClient (E : Env σ) (s s' : WiFiManager σ) (h : handleClient E s = some s') :
    SaveFrame s s' := by
  unfold handleClient at h
  simp only at h
  split at h
  · simp only [Option.some.injEq] at h; subst h
    exact saveFrame_of_eq _ _ rfl rfl
  · have hd := saveFrame_dispatch E _ _ _ h
    exact SaveFrame.trans (saveFrame_of_eq _ _ rfl rfl) hd
theorem saveFrame_waitLoop (E : Env σ) (start : Nat) :
    ∀ (fuel : Nat) (s s' : WiFiManager σ) (r : WlStatus),
      waitLoop E start fuel s = some (r, s') → SaveFrame s s' := by
  intro fuel
  induction fuel with
  | zero => intro s s' r h; simp [waitLoop] at h
  | succ fuel ih =>
    intro s s' r h
    simp only [waitLoop] at h
    have hf : SaveFrame s (call E (Call.delay 100) (millis E (wifiStatus E s).2).2) :=
      ((saveFrame_wifiStatus E s).trans (saveFrame_millis E _)).trans (saveFrame_call E _ _)
    split at h
    · simp only [Option.some.injEq, Prod.mk.injEq] at h
      rw [← h.2]
      exact hf
    · exact hf.trans (ih _ _ _ h)

theorem saveFrame_waitForConnectResult (E : Env σ) (fuel : Nat) (s s' : WiFiManager σ) (r : WlStatus)
    (h : waitForConnectResult E fuel s = some (r, s')) : SaveFrame s s' := by
  unfold waitForConnectResult at h
  split at h
  · simp only [Option.some.injEq, Prod.mk.injEq] at h
    rw [← h.2]
    exact saveFrame_of_eq _ _ rfl rfl
  · simp only at h
    split at h
    · exact absurd h (by simp)
    · rename_i st t heq
      simp only [Option.some.injEq, Prod.mk.injEq] at h
      rw [← h.2]
      refine ((saveFrame_millis E s).trans (saveFrame_waitLoop E _ _ _ _ _ heq)).trans ?_
      refine SaveFrame.trans ?_ (saveFrame_notifyStatus _)
      split
      · exact saveFrame_of_eq _ _ rfl rfl
      · split
        · exact saveFrame_of_eq _ _ rfl rfl
        · exact SaveFrame.refl _

theorem saveFrame_modeFromStatus (E : Env σ) (s : WiFiManager σ) : SaveFrame s (modeFromStatus E s) := by
  unfold modeFromStatus
  simp only
  split
  · exact saveFrame_of_eq _ _ rfl rfl
  · split
    · exact saveFrame_of_eq _ _ rfl rfl
    · exact saveFrame_of_eq _ _ rfl rfl

theorem saveFrame_connectTail (E : Env σ) (fuel : Nat) (pass : String) (connRes r : WlStatus)
    (s s' : WiFiManager σ) (h : connectTail E fuel pass connRes s = some (r, s')) : SaveFrame s s' := by
  unfold connectTail at h
  simp only at h
  have hf : SaveFrame s (notifyStatus (modeFromStatus E s)) :=
    (saveFrame_modeFromStatus E s).trans (saveFrame_notifyStatus _)
  split at h
  · exact hf.trans (saveFrame_waitForConnectResult E _ _ _ _ h)
  · simp only [Option.some.injEq, Prod.mk.injEq] at h
    rw [← h.2]
    exact hf

theorem saveFrame_connect (E : Env σ) :
    ∀ fuel : Nat,
      (∀ (ssid pass : String) (s s' : WiFiManager σ) (r : WlStatus),
        connectWifi E fuel ssid pass s = some (r, s') → SaveFrame s s') ∧
      (∀ (ssid pass : String) (count : Nat) (s s' : WiFiManager σ) (r : WlStatus),
        doConnectWifi E fuel ssid pass count s = some (r, s') → SaveFrame s s') := by
  intro fuel
  induction fuel with
  | zero =>
    constructor
    · intro ssid pass s s' r h; simp [connectWifi] at h
    · intro ssid pass count s s' r h; simp [doConnectWifi] at h
  | succ fuel ih =>
    obtain ⟨ihc, ihd⟩ := ih
    constructor
    · intro ssid pass s s' r h
      rw [connectWifi_succ] at h
      cases h1 : doConnectWifi E fuel ssid pass 0 s with
      | none => rw [h1] at h; simp at h
      | some r1 =>
        obtain ⟨c1, s1⟩ := r1
        rw [h1] at h
        simp only [Option.some_bind] at h
        have f1 := ihd _ _ _ _ _ _ h1
        split at h
        · cases h2 : doConnectWifi E fuel ssid pass 1 (call E (Call.wifiDisconnect true) s1) with
          | none => rw [h2] at h; simp at h
          | some r2 =>
            obtain ⟨c2, s2⟩ := r2
            rw [h2] at h
            simp only [Option.some_bind] at h
            exact ((f1.trans (saveFrame_call E _ _)).trans (ihd _ _ _ _ _ _ h2)).trans
              (saveFrame_connectTail E _ _ _ _ _ _ h)
        · simp only [Option.some_bind] at h
          exact f1.trans (saveFrame_connectTail E _ _ _ _ _ _ h)
    · intro ssid pass count s s' r h
      simp only [doConnectWifi] at h
      generalize hs0 : (if s._sta_static_ip ≠ 0 then
        call E (Call.wifiConfig s._sta_static_ip s._sta_static_gw s._sta_static_sn) s
        else s) = s0 at h
      have f0 : SaveFrame s (wifiStatus E s0).2 := by
        refine SaveFrame.trans ?_ (saveFrame_wifiStatus E _)
        rw [← hs0]
        split
        · exact saveFrame_call E _ _
        · exact SaveFrame.refl _
      by_cases hc : (wifiStatus E s0).1 = WlStatus.WL_CONNECTED
      · rw [if_pos hc] at h
        simp only [Option.some.injEq, Prod.mk.injEq] at h
        rw [← h.2]
        exact (f0.trans (saveFrame_of_eq _ _ rfl rfl)).trans (saveFrame_notifyStatus _)
      · rw [if_neg hc] at h
        have f1 := f0.trans (saveFrame_call E
          (Call.wifiSetHostname (getHostname (wifiStatus E s0).2)) (wifiStatus E s0).2)
        by_cases hs : ssid ≠ ""
        · rw [if_pos hs] at h
          simp only at h
          exact (f1.trans (saveFrame_call E _ _)).trans
            (saveFrame_waitForConnectResult E _ _ _ _ h)
        · rw [if_neg hs] at h
          split at h
          · exact absurd h (by simp)
          · rename_i t heq
            split at heq
            · generalize h3 : connectWifi E fuel _ _ _ = o at heq
              cases o with
              | none => simp at heq
              | some r3 =>
                obtain ⟨c3, s3⟩ := r3
                simp only [Option.map_some', Option.some.injEq] at heq
                subst heq
                exact ((((f1.trans (saveFrame_call E _ _)).trans (saveFrame_call E _ _)).trans
                  (saveFrame_call E _ _)).trans (ihc _ _ _ _ _ h3)).trans
                  (saveFrame_waitForConnectResult E _ _ _ _ h)
            · simp only [Option.some.injEq] at heq
              subst heq
              exact f1.trans (saveFrame_waitForConnectResult E _ _ _ _ h)
theorem portalIteration_timeout (E : Env σ) (fuel : Nat) (s : WiFiManager σ)
    (h : (configPortalHasTimeout E s).1 = true) :
    portalIteration E fuel s = some (true, (configPortalHasTimeout E s).2) := by
  simp only [portalIteration, h, if_true]

theorem pendingAttempt_timeout (E : Env σ) (s : WiFiManager σ)
    (h : (configPortalHasTimeout E s).1 = true) : pendingAttempt E s = none := by
  simp only [pendingAttempt, h, if_true]

/-- A pass that makes an attempt ends as `afterAttempt` says. -/
theorem portalIteration_of_attempt (E : Env σ) (fuel : Nat) (s a : WiFiManager σ)
    (h : pendingAttempt E s = some a) :
    portalIteration E fuel s =
      (connectWifi E fuel (a._ssid.getD "") a._pass a).bind
        (fun ra => some (afterAttempt E ra.1 ra.2)) := by
  unfold pendingAttempt at h
  unfold portalIteration
  simp only at h ⊢
  by_cases ht : (configPortalHasTimeout E s).1 = true
  · rw [if_pos ht] at h; exact absurd h (by simp)
  · rw [if_neg ht] at h
    rw [if_neg ht]
    cases hh : handleClient E (call E Call.dnsProcessNextRequest (configPortalHasTimeout E s).2) with
    | none => rw [hh] at h; exact absurd h (by simp)
    | some t =>
      rw [hh] at h
      simp only at h ⊢
      by_cases hc : t.connect = true
      · rw [if_pos hc] at h
        rw [if_pos hc]
        simp only [Option.some.injEq] at h
        subst h
        cases hcw : connectWifi E fuel _ _ _ with
        | none => rfl
        | some ra =>
          obtain ⟨r, a'⟩ := ra
          simp only [Option.some_bind, afterAttempt]
          by_cases hr : r = WlStatus.WL_CONNECTED
          · subst hr; simp
          · simp only [ne_eq, hr, not_false_eq_true, if_true]
            split <;> rfl
      · rw [if_neg hc] at h; exact absurd h (by simp)

/-- A pass that makes no attempt either times out or continues. -/
theorem portalIteration_no_attempt (E : Env σ) (fuel : Nat) (s : WiFiManager σ) (b : Bool) (s' : WiFiManager σ)
    (h : pendingAttempt E s = none) (hi : portalIteration E fuel s = some (b, s')) :
    (b = true ∧ (configPortalHasTimeout E s).1 = true ∧ s' = (configPortalHasTimeout E s).2) ∨
    (b = false ∧ SaveFrame s s') := by
  unfold pendingAttempt at h
  unfold portalIteration at hi
  simp only at h hi
  by_cases ht : (configPortalHasTimeout E s).1 = true
  · rw [if_pos ht] at hi
    simp only [Option.some.injEq, Prod.mk.injEq] at hi
    exact Or.inl ⟨hi.1.symm, ht, hi.2.symm⟩
  · rw [if_neg ht] at h hi
    cases hh : handleClient E (call E Call.dnsProcessNextRequest (configPortalHasTimeout E s).2) with
    | none => rw [hh] at hi; exact absurd hi (by simp)
    | some t =>
      rw [hh] at h hi
      simp only at h hi
      by_cases hc : t.connect = true
      · rw [if_pos hc] at h; exact absurd h (by simp)
      · rw [if_neg hc] at hi
        simp only [Option.some.injEq, Prod.mk.injEq] at hi
        refine Or.inr ⟨hi.1.symm, ?_⟩
        rw [← hi.2]
        exact (((saveFrame_configPortalHasTimeout E s).trans (saveFrame_call E _ _)).trans
          (saveFrame_handleClient E _ _ hh)).trans (saveFrame_call E _ _)

theorem saveFrame_pendingAttempt (E : Env σ) (s a : WiFiManager σ) (h : pendingAttempt E s = some a) :
    SaveFrame s a := by
  unfold pendingAttempt at h
  simp only at h
  split at h
  · exact absurd h (by simp)
  · split at h
    · exact absurd h (by simp)
    · rename_i t hh
      split at h
      · simp only [Option.some.injEq] at h
        rw [← h]
        exact (((((saveFrame_configPortalHasTimeout E s).trans (saveFrame_call E _ _)).trans
          (saveFrame_handleClient E _ _ hh)).trans (saveFrame_of_eq _ _ rfl rfl)).trans
          ((saveFrame_call E (Call.delay 2000) _).trans (saveFrame_of_eq _ _ rfl rfl))).trans
          (saveFrame_notifyStatus _)
      · exact absurd h (by simp)
theorem afterAttempt_spec (E : Env σ) (r : WlStatus) (a : WiFiManager σ) :
    (afterAttempt E r a).2.mode =
      (if r = WlStatus.WL_CONNECTED then Mode.CONNECTED else Mode.DISCONNECTED) ∧
    ((afterAttempt E r a).1 = true ↔
      (r = WlStatus.WL_CONNECTED ∨ a._shouldBreakAfterConfig = true)) ∧
    (afterAttempt E r a).2._savecallback = a._savecallback ∧
    (a._savecallback = true →
      saveCount (afterAttempt E r a).2.trace =
        saveCount a.trace + (if (afterAttempt E r a).1 = true then 1 else 0)) ∧
    ((afterAttempt E r a).1 = false →
      saveCount (afterAttempt E r a).2.trace = saveCount a.trace) := by
  by_cases hr : r = WlStatus.WL_CONNECTED <;> cases hcb : a._statusCb <;>
    cases hb : a._shouldBreakAfterConfig <;> cases hs : a._savecallback <;>
    simp [afterAttempt, notifyStatus, notifySave, call, saveCount, hr, hcb, hb, hs]

/-- Without a registered save callback the end of a pass invokes none. -/
theorem afterAttempt_unregistered (E : Env σ) (r : WlStatus) (a : WiFiManager σ)
    (h : a._savecallback = false) :
    saveCount (afterAttempt E r a).2.trace = saveCount a.trace := by
  by_cases hr : r = WlStatus.WL_CONNECTED <;> cases hcb : a._statusCb <;>
    cases hb : a._shouldBreakAfterConfig <;>
    simp [afterAttempt, notifyStatus, notifySave, call, saveCount, hr, hcb, hb, h]

/-- A run of the service loop that returns ends with a pass that leaves the
loop, reached through passes that continue. -/
theorem portalLoop_last_pass (E : Env σ) (fuel : Nat) :
    ∀ (n : Nat) (s s' : WiFiManager σ), portalLoop E fuel n s = some s' →
      ∃ t, Relation.ReflTransGen (ContinuingPass E fuel) s t ∧
        portalIteration E fuel t = some (true, s') := by
  intro n
  induction n with
  | zero => intro s s' h; simp [portalLoop] at h
  | succ n ih =>
    intro s s' h
    simp only [portalLoop] at h
    cases hi : portalIteration E fuel s with
    | none => rw [hi] at h; exact absurd h (by simp)
    | some bt =>
      obtain ⟨b, t⟩ := bt
      rw [hi] at h
      cases b with
      | true =>
        simp only [Option.some.injEq] at h
        subst h
        exact ⟨s, Relation.ReflTransGen.refl, hi⟩
      | false =>
        simp only at h
        obtain ⟨u, hu, hlast⟩ := ih t s' h
        exact ⟨u, Relation.ReflTransGen.head hi hu, hlast⟩

/-- A pass that continues invokes no save callback; if it made an attempt,
the attempt failed, the stop flag is unset and the mode is DISCONNECTED. -/
theorem continuingPass_spec (E : Env σ) (fuel : Nat) (s s' : WiFiManager σ)
    (h : ContinuingPass E fuel s s') :
    SaveFrame s s' ∧
    ∀ a, pendingAttempt E s = some a →
      ∃ r a', connectWifi E fuel (a._ssid.getD "") a._pass a = some (r, a') ∧
        r ≠ WlStatus.WL_CONNECTED ∧ a'._shouldBreakAfterConfig = false ∧
        s'.mode = Mode.DISCONNECTED := by
  unfold ContinuingPass at h
  cases hp : pendingAttempt E s with
  | none =>
    rcases portalIteration_no_attempt E fuel s false s' hp h with h1 | h1
    · exact absurd h1.1 (by simp)
    · exact ⟨h1.2, fun a ha => absurd ha (by simp)⟩
  | some a =>
    rw [portalIteration_of_attempt E fuel s a hp] at h
    cases hcw : connectWifi E fuel (a._ssid.getD "") a._pass a with
    | none => rw [hcw] at h; exact absurd h (by simp)
    | some ra =>
      obtain ⟨r, a'⟩ := ra
      rw [hcw] at h
      simp only [Option.some_bind, Option.some.injEq] at h
      obtain ⟨hmode, hexit, hsc, -, hcount⟩ := afterAttempt_spec E r a'
      have h1 : (afterAttempt E r a').1 = false := by rw [h]
      have h2 : (afterAttempt E r a').2 = s' := by rw [h]
      have hne : ¬ (r = WlStatus.WL_CONNECTED ∨ a'._shouldBreakAfterConfig = true) := by
        intro hor
        have := hexit.mpr hor
        rw [h1] at this
        exact absurd this (by simp)
      have hr : r ≠ WlStatus.WL_CONNECTED := fun e => hne (Or.inl e)
      have hb : a'._shouldBreakAfterConfig = false := by
        cases hbb : a'._shouldBreakAfterConfig
        · rfl
        · exact absurd (Or.inr hbb) hne
      have fa : SaveFrame s a' :=
        (saveFrame_pendingAttempt E s a hp).trans ((saveFrame_connect E fuel).1 _ _ _ _ _ hcw)
      refine ⟨?_, ?_⟩
      · rw [← h2]
        constructor
        · rw [hsc]; exact fa.1
        · rw [hcount h1]; exact fa.2
      · intro a2 ha2
        simp only [Option.some.injEq] at ha2
        subst ha2
        refine ⟨r, a', hcw, hr, hb, ?_⟩
        rw [← h2, hmode, if_neg hr]

/-- A pass that leaves the loop does so on the timeout check, without a save
callback, or right after a connection attempt that returned CONNECTED or was
made with the stop flag set; then a registered save callback is invoked
exactly once, and none is invoked when none is registered. -/
theorem exitingPass_spec (E : Env σ) (fuel : Nat) (s s' : WiFiManager σ)
    (h : portalIteration E fuel s = some (true, s')) :
    ((configPortalHasTimeout E s).1 = true ∧ pendingAttempt E s = none ∧
      saveCount s'.trace = saveCount s.trace) ∨
    (∃ a r a', (configPortalHasTimeout E s).1 = false ∧ pendingAttempt E s = some a ∧
      connectWifi E fuel (a._ssid.getD "") a._pass a = some (r, a') ∧
      ((r = WlStatus.WL_CONNECTED ∧ s'.mode = Mode.CONNECTED) ∨
        (r ≠ WlStatus.WL_CONNECTED ∧ a'._shouldBreakAfterConfig = true ∧
          s'.mode = Mode.DISCONNECTED)) ∧
      (s._savecallback = true → saveCount s'.trace = saveCount s.trace + 1) ∧
      (s._savecallback = false → saveCount s'.trace = saveCount s.trace)) := by
  cases hp : pendingAttempt E s with
  | none =>
    rcases portalIteration_no_attempt E fuel s true s' hp h with h1 | h1
    · left
      refine ⟨h1.2.1, rfl, ?_⟩
      rw [h1.2.2]
      exact (saveFrame_configPortalHasTimeout E s).2
    · exact absurd h1.1 (by simp)
  | some a =>
    right
    have hnt : (configPortalHasTimeout E s).1 = false := by
      cases ht : (configPortalHasTimeout E s).1
      · rfl
      · rw [pendingAttempt_timeout E s ht] at hp
        exact absurd hp (by simp)
    rw [portalIteration_of_attempt E fuel s a hp] at h
    cases hcw : connectWifi E fuel (a._ssid.getD "") a._pass a with
    | none => rw [hcw] at h; exact absurd h (by simp)
    | some ra =>
      obtain ⟨r, a'⟩ := ra
      rw [hcw] at h
      simp only [Option.some_bind, Option.some.injEq] at h
      obtain ⟨hmode, hexit, -, hcount, -⟩ := afterAttempt_spec E r a'
      have h1 : (afterAttempt E r a').1 = true := by rw [h]
      have h2 : (afterAttempt E r a').2 = s' := by rw [h]
      have fa : SaveFrame s a' :=
        (saveFrame_pendingAttempt E s a hp).trans ((saveFrame_connect E fuel).1 _ _ _ _ _ hcw)
      refine ⟨a, r, a', hnt, rfl, hcw, ?_, ?_, ?_⟩
      · by_cases hr : r = WlStatus.WL_CONNECTED
        · left
          refine ⟨hr, ?_⟩
          rw [← h2, hmode, if_pos hr]
        · right
          refine ⟨hr, ?_, ?_⟩
          · rcases hexit.mp h1 with h3 | h3
            · exact absurd h3 hr
            · exact h3
          · rw [← h2, hmode, if_neg hr]
      · intro hsave
        have hsa : a'._savecallback = true := by rw [fa.1]; exact hsave
        rw [← h2, hcount hsa, if_pos h1, fa.2]
      · intro hsave
        have hsa : a'._savecallback = false := by rw [fa.1]; exact hsave
        rw [← h2, afterAttempt_unregistered E r a' hsa, fa.2]

theorem saveFrame_continuing (E : Env σ) (fuel : Nat) (s t : WiFiManager σ)
    (h : Relation.ReflTransGen (ContinuingPass E fuel) s t) : SaveFrame s t := by
  induction h with
  | refl => exact SaveFrame.refl s
  | tail _ hstep ih => exact ih.trans (continuingPass_spec E fuel _ _ hstep).1

/-- C5: every run of the service loop that returns went through passes that
continue, none of which invoked the save callback, and then left the loop on
a pass where (a) the timeout check fired, with no save callback at all, or
(b) a connection attempt returned CONNECTED, or (c) a connection attempt
failed with the stop-after-one-attempt flag set, in both cases with the mode
CONNECTED resp. DISCONNECTED and with exactly one invocation of the save
callback when one is registered (none when none is).  A pass whose attempt
fails with the flag unset continues, with the mode DISCONNECTED. -/
theorem C5_service_loop_exits (E : Env σ) (fuel n : Nat) (s s' : WiFiManager σ)
    (hrun : portalLoop E fuel n s = some s') :
    (∃ t, Relation.ReflTransGen (ContinuingPass E fuel) s t ∧
      saveCount t.trace = saveCount s.trace ∧
      portalIteration E fuel t = some (true, s') ∧
      (((configPortalHasTimeout E t).1 = true ∧ pendingAttempt E t = none ∧
          saveCount s'.trace = saveCount s.trace) ∨
        (∃ a r a', (configPortalHasTimeout E t).1 = false ∧ pendingAttempt E t = some a ∧
          connectWifi E fuel (a._ssid.getD "") a._pass a = some (r, a') ∧
          ((r = WlStatus.WL_CONNECTED ∧ s'.mode = Mode.CONNECTED) ∨
            (r ≠ WlStatus.WL_CONNECTED ∧ a'._shouldBreakAfterConfig = true ∧
              s'.mode = Mode.DISCONNECTED)) ∧
          (s._savecallback = true → saveCount s'.trace = saveCount s.trace + 1) ∧
          (s._savecallback = false → saveCount s'.trace = saveCount s.trace)))) ∧
    (∀ u a r a', pendingAttempt E u = some a →
      connectWifi E fuel (a._ssid.getD "") a._pass a = some (r, a') →
      r ≠ WlStatus.WL_CONNECTED → a'._shouldBreakAfterConfig = false →
      ∃ u', ContinuingPass E fuel u u' ∧ u'.mode = Mode.DISCONNECTED) := by
  constructor
  · obtain ⟨t, hreach, hlast⟩ := portalLoop_last_pass E fuel n s s' hrun
    have hf := saveFrame_continuing E fuel s t hreach
    refine ⟨t, hreach, hf.2, hlast, ?_⟩
    rcases exitingPass_spec E fuel t s' hlast with h1 | ⟨a, r, a', h1, h2, h3, h4, h5, h6⟩
    · exact Or.inl ⟨h1.1, h1.2.1, by rw [h1.2.2, hf.2]⟩
    · refine Or.inr ⟨a, r, a', h1, h2, h3, h4, ?_, ?_⟩
      · intro hsave
        rw [h5 (by rw [hf.1]; exact hsave), hf.2]
      · intro hsave
        rw [h6 (by rw [hf.1]; exact hsave), hf.2]
  · intro u a r a' hp hcw hr hb
    obtain ⟨hmode, hexit, -, -, -⟩ := afterAttempt_spec E r a'
    have hfalse : (afterAttempt E r a').1 = false := by
      cases hx : (afterAttempt E r a').1
      · rfl
      · rcases hexit.mp hx with h | h
        · exact absurd h hr
        · rw [hb] at h; exact absurd h (by simp)
    refine ⟨(afterAttempt E r a').2, ?_, ?_⟩
    · unfold ContinuingPass
      rw [portalIteration_of_attempt E fuel u a hp, hcw]
      simp only [Option.some_bind, Option.some.injEq]
      rw [← hfalse]
    · rw [hmode, if_neg hr]

theorem C5_service_loop_exits_witness :
    (portalLoop stubEnv 3 3 openPortal).map (fun s => (s.mode, saveCount s.trace)) =
      some (Mode.CONNECTED, 1) ∧
    (portalLoop stubEnv 3 3 { openPortal with _savecallback := false }).map
        (fun s => (s.mode, saveCount s.trace)) = some (Mode.CONNECTED, 0) ∧
    ∃ s', portalLoop stubEnv 3 3 openPortal = some s' ∧
      (saveCount s'.trace = saveCount openPortal.trace ∨
        saveCount s'.trace = saveCount openPortal.trace + 1) := by
  refine ⟨by decide!, by decide!, ?_⟩
  have hsome : (portalLoop stubEnv 3 3 openPortal).isSome = true := by decide!
  obtain ⟨s', hs'⟩ := Option.isSome_iff_exists.mp hsome
  obtain ⟨t, -, -, -, h⟩ := (C5_service_loop_exits stubEnv 3 3 openPortal s' hs').1
  refine ⟨s', hs', ?_⟩
  rcases h with h | ⟨a, r, a', -, -, -, -, h, -⟩
  · exact Or.inl h.2.2
  · exact Or.inr (h rfl)

/-! ## At most two attempts, for every radio -/

theorem Attempts.same (s : WiFiManager σ) : Attempts s s [] :=
  ⟨[], by simp, rfl⟩

theorem Attempts.chain {a b c : WiFiManager σ} {l1 l2 : List Call} (h1 : Attempts a b l1)
    (h2 : Attempts b c l2) : Attempts a c (l1 ++ l2) := by
  obtain ⟨e1, t1, r1⟩ := h1
  obtain ⟨e2, t2, r2⟩ := h2
  exact ⟨e1 ++ e2, by rw [t2, t1, List.append_assoc], by rw [radioAttempts_append, r1, r2]⟩

theorem Attempts.then_quiet {a b c : WiFiManager σ} {l : List Call} (h1 : Attempts a b l)
    (h2 : Attempts b c []) : Attempts a c l := by
  simpa using h1.chain h2

theorem Attempts.of_trace_eq (s s' : WiFiManager σ) (h : s'.trace = s.trace) : Attempts s s' [] :=
  ⟨[], by simp [h], rfl⟩

theorem attempts_call (E : Env σ) (c : Call) (s : WiFiManager σ) :
    Attempts s (call E c s) (radioAttempts [Event.call c]) :=
  ⟨[Event.call c], rfl, rfl⟩

theorem attempts_notifyStatus (s : WiFiManager σ) : Attempts s (notifyStatus s) [] := by
  unfold notifyStatus
  split
  · exact ⟨[Event.statusCb s.mode], rfl, rfl⟩
  · exact Attempts.same s

theorem attempts_modeFromStatus (E : Env σ) (s : WiFiManager σ) :
    Attempts s (modeFromStatus E s) [] := by
  unfold modeFromStatus
  simp only
  split
  · exact Attempts.of_trace_eq _ _ rfl
  · split
    · exact Attempts.of_trace_eq _ _ rfl
    · exact Attempts.of_trace_eq _ _ rfl

theorem attempts_waitLoop (E : Env σ) (start : Nat) :
    ∀ (fuel : Nat) (s s' : WiFiManager σ) (r : WlStatus),
      waitLoop E start fuel s = some (r, s') → Attempts s s' [] := by
  intro fuel
  induction fuel with
  | zero => intro s s' r h; simp [waitLoop] at h
  | succ fuel ih =>
    intro s s' r h
    simp only [waitLoop] at h
    have hf : Attempts s (call E (Call.delay 100) (millis E (wifiStatus E s).2).2) [] :=
      (Attempts.of_trace_eq s (millis E (wifiStatus E s).2).2 rfl).then_quiet (attempts_call E _ _)
    split at h
    · simp only [Option.some.injEq, Prod.mk.injEq] at h
      rw [← h.2]
      exact hf
    · exact hf.then_quiet (ih _ _ _ h)

theorem attempts_waitForConnectResult (E : Env σ) (fuel : Nat) (s s' : WiFiManager σ)
    (r : WlStatus) (h : waitForConnectResult E fuel s = some (r, s')) : Attempts s s' [] := by
  unfold waitForConnectResult at h
  split at h
  · simp only [Option.some.injEq, Prod.mk.injEq] at h
    rw [← h.2]
    exact Attempts.of_trace_eq _ _ rfl
  · simp only at h
    split at h
    · exact absurd h (by simp)
    · rename_i st t heq
      simp only [Option.some.injEq, Prod.mk.injEq] at h
      rw [← h.2]
      have h1 : Attempts s t [] :=
        (Attempts.of_trace_eq s (millis E s).2 rfl).then_quiet (attempts_waitLoop E _ _ _ _ _ heq)
      refine (h1.then_quiet ?_).then_quiet (attempts_notifyStatus _)
      split
      · exact Attempts.of_trace_eq _ _ rfl
      · split
        · exact Attempts.of_trace_eq _ _ rfl
        · exact Attempts.same _

theorem attempts_connectTail (E : Env σ) (fuel : Nat) (pass : String) (connRes r : WlStatus)
    (s s' : WiFiManager σ) (h : connectTail E fuel pass connRes s = some (r, s')) :
    Attempts s s' [] := by
  unfold connectTail at h
  simp only at h
  have hf : Attempts s (notifyStatus (modeFromStatus E s)) [] :=
    (attempts_modeFromStatus E s).then_quiet (attempts_notifyStatus _)
  split at h
  · exact hf.then_quiet (attempts_waitForConnectResult E _ _ _ _ h)
  · simp only [Option.some.injEq, Prod.mk.injEq] at h
    rw [← h.2]
    exact hf

/-- With a non-empty ssid `doConnectWifi` issues one `WiFi.begin`, or none
when the radio is found connected. -/
theorem attempts_doConnectWifi (E : Env σ) (fuel count : Nat) (ssid pass : String)
    (s s' : WiFiManager σ) (r : WlStatus) (hssid : ssid ≠ "")
    (h : doConnectWifi E fuel ssid pass count s = some (r, s')) :
    (r = WlStatus.WL_CONNECTED ∧ Attempts s s' []) ∨ Attempts s s' [Call.wifiBegin ssid pass] := by
  cases fuel with
  | zero => simp [doConnectWifi] at h
  | succ fuel =>
    simp only [doConnectWifi] at h
    generalize hs0 : (if s._sta_static_ip ≠ 0 then
      call E (Call.wifiConfig s._sta_static_ip s._sta_static_gw s._sta_static_sn) s
      else s) = s0 at h
    have f0 : Attempts s (wifiStatus E s0).2 [] := by
      refine Attempts.then_quiet ?_ (Attempts.of_trace_eq s0 _ rfl)
      rw [← hs0]
      split
      · exact attempts_call E _ _
      · exact Attempts.same _
    by_cases hc : (wifiStatus E s0).1 = WlStatus.WL_CONNECTED
    · rw [if_pos hc] at h
      simp only [Option.some.injEq, Prod.mk.injEq] at h
      left
      refine ⟨h.1.symm, ?_⟩
      rw [← h.2]
      exact (f0.then_quiet (Attempts.of_trace_eq _ _ rfl)).then_quiet (attempts_notifyStatus _)
    · rw [if_neg hc, if_pos hssid] at h
      simp only at h
      right
      have hb := (f0.then_quiet (attempts_call E
        (Call.wifiSetHostname (getHostname (wifiStatus E s0).2)) (wifiStatus E s0).2)).chain
        (attempts_call E (Call.wifiBegin ssid pass) _)
      exact Attempts.then_quiet (by simpa [radioAttempts] using hb)
        (attempts_waitForConnectResult E _ _ _ _ h)

/-- For every radio and every non-empty ssid, a `connectWifi` that returns
has issued at most two `WiFi.begin` calls, the second one only after a
`WiFi.disconnect(true)`. -/
theorem connectWifi_attempts (E : Env σ) (fuel : Nat) (ssid pass : String)
    (s s' : WiFiManager σ) (r : WlStatus) (hssid : ssid ≠ "")
    (h : connectWifi E fuel ssid pass s = some (r, s')) :
    Attempts s s' [] ∨ Attempts s s' [Call.wifiBegin ssid pass] ∨
    Attempts s s' [Call.wifiBegin ssid pass, Call.wifiDisconnect true] ∨
    Attempts s s'
      [Call.wifiBegin ssid pass, Call.wifiDisconnect true, Call.wifiBegin ssid pass] := by
  cases fuel with
  | zero => simp [connectWifi] at h
  | succ fuel =>
    rw [connectWifi_succ] at h
    cases h1 : doConnectWifi E fuel ssid pass 0 s with
    | none => rw [h1] at h; simp at h
    | some r1 =>
      obtain ⟨c1, s1⟩ := r1
      rw [h1] at h
      simp only [Option.some_bind] at h
      have a1 := attempts_doConnectWifi E fuel 0 ssid pass s s1 c1 hssid h1
      by_cases hc : c1 = WlStatus.WL_CONNECTED
      · rw [if_neg (by simpa using hc)] at h
        simp only [Option.some_bind] at h
        have t := attempts_connectTail E _ _ _ _ _ _ h
        rcases a1 with a1 | a1
        · left; exact a1.2.then_quiet t
        · right; left; exact a1.then_quiet t
      · rw [if_pos hc] at h
        have a1' : Attempts s s1 [Call.wifiBegin ssid pass] := by
          rcases a1 with a1 | a1
          · exact absurd a1.1 hc
          · exact a1
        cases h2 : doConnectWifi E fuel ssid pass 1 (call E (Call.wifiDisconnect true) s1) with
        | none => rw [h2] at h; simp at h
        | some r2 =>
          obtain ⟨c2, s2⟩ := r2
          rw [h2] at h
          simp only [Option.some_bind] at h
          have t := attempts_connectTail E _ _ _ _ _ _ h
          have d := attempts_call E (Call.wifiDisconnect true) s1
          rcases attempts_doConnectWifi E fuel 1 ssid pass _ s2 c2 hssid h2 with a2 | a2
          · right; right; left
            exact Attempts.then_quiet (by simpa [radioAttempts] using a1'.chain d)
              (a2.2.then_quiet t)
          · right; right; right
            exact Attempts.then_quiet
              (by simpa [radioAttempts] using (a1'.chain d).chain a2) t

/-- For every radio and every non-empty ssid: when the first attempt ends
without CONNECTED and the second ends with CONNECTED, `connectWifi` returns
WL_CONNECTED after `begin`, `disconnect(true)`, `begin`, or after `begin`,
`disconnect(true)` when the radio is found connected again before the second
`begin`. -/
theorem connectWifi_retry (E : Env σ) (fuel : Nat) (ssid pass : String)
    (s s1 s2 : WiFiManager σ) (r1 : WlStatus) (hssid : ssid ≠ "")
    (h1 : doConnectWifi E fuel ssid pass 0 s = some (r1, s1))
    (hr1 : r1 ≠ WlStatus.WL_CONNECTED)
    (h2 : doConnectWifi E fuel ssid pass 1 (call E (Call.wifiDisconnect true) s1) =
      some (WlStatus.WL_CONNECTED, s2)) :
    ∃ s', connectWifi E (fuel + 1) ssid pass s = some (WlStatus.WL_CONNECTED, s') ∧
      (Attempts s s'
          [Call.wifiBegin ssid pass, Call.wifiDisconnect true, Call.wifiBegin ssid pass] ∨
        Attempts s s' [Call.wifiBegin ssid pass, Call.wifiDisconnect true]) := by
  have hret : connectWifi E (fuel + 1) ssid pass s =
      some (WlStatus.WL_CONNECTED, notifyStatus (modeFromStatus E s2)) := by
    rw [connectWifi_succ, h1]
    simp only [Option.some_bind, if_pos hr1, h2]
    simp [connectTail]
  refine ⟨_, hret, ?_⟩
  have t : Attempts s2 (notifyStatus (modeFromStatus E s2)) [] :=
    (attempts_modeFromStatus E s2).then_quiet (attempts_notifyStatus _)
  have a1 : Attempts s s1 [Call.wifiBegin ssid pass] := by
    rcases attempts_doConnectWifi E fuel 0 ssid pass s s1 r1 hssid h1 with a | a
    · exact absurd a.1 hr1
    · exact a
  have d := attempts_call E (Call.wifiDisconnect true) s1
  rcases attempts_doConnectWifi E fuel 1 ssid pass _ s2 _ hssid h2 with a2 | a2
  · right
    exact Attempts.then_quiet (by simpa [radioAttempts] using a1.chain d) (a2.2.then_quiet t)
  · left
    exact Attempts.then_quiet (by simpa [radioAttempts] using (a1.chain d).chain a2) t

/-- For every radio and every non-empty ssid: when the first attempt ends
with CONNECTED, `connectWifi` returns WL_CONNECTED without a disconnect and
without a second attempt. -/
theorem connectWifi_first_try (E : Env σ) (fuel : Nat) (ssid pass : String)
    (s s1 : WiFiManager σ) (hssid : ssid ≠ "")
    (h1 : doConnectWifi E fuel ssid pass 0 s = some (WlStatus.WL_CONNECTED, s1)) :
    ∃ s', connectWifi E (fuel + 1) ssid pass s = some (WlStatus.WL_CONNECTED, s') ∧
      (Attempts s s' [Call.wifiBegin ssid pass] ∨ Attempts s s' []) := by
  have hret : connectWifi E (fuel + 1) ssid pass s =
      some (WlStatus.WL_CONNECTED, notifyStatus (modeFromStatus E s1)) := by
    rw [connectWifi_succ, h1]
    simp [connectTail]
  refine ⟨_, hret, ?_⟩
  have t : Attempts s1 (notifyStatus (modeFromStatus E s1)) [] :=
    (attempts_modeFromStatus E s1).then_quiet (attempts_notifyStatus _)
  rcases attempts_doConnectWifi E fuel 0 ssid pass s s1 _ hssid h1 with a | a
  · right
    exact a.2.then_quiet t
  · left
    exact a.then_quiet t

/-! ## The end-to-end scenario on the stub -/

theorem waitForConnectResult_stub_zero (fuel : Nat) (s : WiFiManager Stub)
    (hT : s._connectTimeout = 0) :
    waitForConnectResult stubEnv fuel s = some (s.env.status, s) := by
  unfold waitForConnectResult
  rw [if_pos hT]
  rfl

/-- C15: for every signal strength `s`, `getRSSIasQuality s` is 0 when
`s ≤ -100`, 100 when `s ≥ -50` and `2 * (s + 100)` in between, so 50 at -75;
the mapping is monotonic non-decreasing.  In the middle branch the value
lies between 2 and 98, so the 32-bit `int` arithmetic of the source does not
wrap. -/
theorem C15_getRSSIasQuality_spec :
    (∀ s : Int, s ≤ -100 → getRSSIasQuality s = 0) ∧
    (∀ s : Int, s ≥ -50 → getRSSIasQuality s = 100) ∧
    (∀ s : Int, -100 < s → s < -50 →
      getRSSIasQuality s = 2 * (s + 100) ∧ 2 ≤ 2 * (s + 100) ∧ 2 * (s + 100) ≤ 98) ∧
    getRSSIasQuality (-75) = 50 ∧
    (∀ s t : Int, s ≤ t → getRSSIasQuality s ≤ getRSSIasQuality t) := by
  refine ⟨?_, ?_, ?_, by decide, ?_⟩
  · intro s h
    simp [getRSSIasQuality, h]
  · intro s h
    have h1 : ¬ s ≤ -100 := by omega
    simp [getRSSIasQuality, h, h1]
  · intro s h1 h2
    have h3 : ¬ s ≤ -100 := by omega
    have h4 : ¬ s ≥ -50 := by omega
    refine ⟨by simp [getRSSIasQuality, h3, h4], by omega, by omega⟩
  · intro s t h
    unfold getRSSIasQuality
    split_ifs <;> omega

theorem checkNameLoop_iff (l : List Char) :
    checkNameLoop l = true ↔ ∀ c ∈ l, c.isAlphanum = true ∨ c = '-' := by
  induction l with
  | nil => simp [checkNameLoop]
  | cons c rest ih =>
    have hc : ((('a' ≤ c) ∧ (c ≤ 'z')) ∨ (('A' ≤ c) ∧ (c ≤ 'Z')) ∨
        (('0' ≤ c) ∧ (c ≤ '9')) ∨ c = '-') ↔ (c.isAlphanum = true ∨ c = '-') := by
      simp only [Char.isAlphanum, Char.isAlpha, Char.isUpper, Char.isLower, Char.isDigit,
        Bool.or_eq_true, Bool.and_eq_true, decide_eq_true_eq, Char.le_def]
      have e1 : ('a' : Char).val = 97 := rfl
      have e2 : ('z' : Char).val = 122 := rfl
      have e3 : ('A' : Char).val = 65 := rfl
      have e4 : ('Z' : Char).val = 90 := rfl
      have e5 : ('0' : Char).val = 48 := rfl
      have e6 : ('9' : Char).val = 57 := rfl
      rw [e1, e2, e3, e4, e5, e6]
      tauto
    simp only [checkNameLoop, List.mem_cons, forall_eq_or_imp]
    by_cases h : ((('a' ≤ c) ∧ (c ≤ 'z')) ∨ (('A' ≤ c) ∧ (c ≤ 'Z')) ∨
        (('0' ≤ c) ∧ (c ≤ '9')) ∨ c = '-')
    · rw [if_neg (not_not.mpr h), ih]
      exact ⟨fun h' => ⟨hc.mp h, h'⟩, fun h' => h'.2⟩
    · rw [if_pos h]
      simp only [Bool.false_eq_true, false_iff, not_and]
      intro h'
      exact absurd (hc.mpr h') h

/-- C16: `checkName` accepts exactly the names of 1 to 63 characters that
are all ASCII letters, digits or hyphens: "device-01" is accepted; the empty
name, every name of 64 characters and "dev name" are rejected. -/
theorem C16_checkName_spec :
    (∀ name : String, checkName name = true ↔
      (1 ≤ name.length ∧ name.length ≤ 63 ∧
        ∀ c ∈ name.toList, c.isAlphanum = true ∨ c = '-')) ∧
    checkName "device-01" = true ∧
    checkName "" = false ∧
    (∀ name : String, name.length = 64 → checkName name = false) ∧
    checkName "dev name" = false := by
  refine ⟨?_, by decide, by decide, ?_, by decide⟩
  · intro name
    unfold checkName
    by_cases h : name.length = 0 ∨ name.length ≥ 64
    · rw [if_pos h]
      simp only [Bool.false_eq_true, false_iff]
      omega
    · rw [if_neg h, checkNameLoop_iff]
      constructor
      · intro h'
        exact ⟨by omega, by omega, h'⟩
      · intro h'
        exact h'.2.2
  · intro name h
    simp [checkName, h]

/-! ## The parameters on a form submission -/

theorem arg_of_lacks (r : Request) (name : String) (h : r.lacks name) : r.arg name = "" := by
  unfold Request.arg
  have hf : r.args.find? (fun kv => kv.1 == name) = none := by
    rw [List.find?_eq_none]
    intro kv hkv
    simpa using h kv hkv
  rw [hf]

/-- Cutting at the first NUL twice is cutting once. -/
theorem c_str_idem (s : String) : c_str (c_str s) = c_str s := by
  unfold c_str
  show String.mk (List.takeWhile _ (List.takeWhile _ s.toList)) = _
  rw [List.takeWhile_takeWhile]
  simp

theorem toCharArray_frame (value : String) (p : WiFiManagerParameter) :
    (toCharArray value p)._id = p._id ∧ (toCharArray value p)._placeholder = p._placeholder ∧
    (toCharArray value p)._length = p._length ∧
    (toCharArray value p)._customHTML = p._customHTML := by
  unfold toCharArray
  split <;> exact ⟨rfl, rfl, rfl, rfl⟩

theorem toCharArray_untouched (value : String) (p : WiFiManagerParameter)
    (h : p._value = none ∨ p._length = 0) : toCharArray value p = p := by
  unfold toCharArray
  rw [if_pos (by simpa using h)]

/-- With a buffer and a declared length that is not zero, the buffer holds
the first `_length - 1` bytes of the C string of the value afterwards. -/
theorem toCharArray_value (value : String) (p : WiFiManagerParameter)
    (hv : p._value ≠ none) (hl : 0 < p._length) :
    (toCharArray value p)._value = some ((bytes (c_str value)).take (p._length - 1)) := by
  unfold toCharArray
  rw [if_neg]
  intro h
  rcases h with h | h
  · exact hv (by simpa using h)
  · omega

theorem handleWifiSave_params (E : Env σ) (req : Request) (s : WiFiManager σ) :
    (handleWifiSave E req s)._params =
      s._params.map (fun p => toCharArray (c_str (req.arg (p._id.getD ""))) p) := by
  unfold handleWifiSave
  simp only [sendPage, call]
  split_ifs <;> rfl

/-- C17, counterexample: the form of the scenario carries no field named
"server", and the buffer of the parameter "server", which held its default
value "broker.lan", holds the empty string afterwards. -/
theorem C17_counterexample :
    homeNetRequest.lacks "server" ∧
    parameterState._params.map (fun p => (p._id, p._value)) =
      [(some "server", some (bytes "broker.lan"))] ∧
    (handleWifiSave stubEnv homeNetRequest parameterState)._params.map
      (fun p => (p._id, p._value)) = [(some "server", some [])] := by
  refine ⟨?_, by decide, by decide⟩
  intro kv hkv
  simp only [homeNetRequest, List.mem_cons, List.mem_singleton, List.not_mem_nil, or_false] at hkv
  rcases hkv with rfl | rfl <;> decide

/-- A submitted value as long as the declared length loses its last byte:
"mqtt.example" has the 12 bytes `serverParameter` declares, and "mqtt.exampl"
is stored. -/
theorem handleWifiSave_declared_length :
    serverRequest.arg "server" = "mqtt.example" ∧
    strlen (serverRequest.arg "server") = serverParameter._length ∧
    (handleWifiSave stubEnv serverRequest parameterState)._params.map
      (fun p => (p._id, p._value)) = [(some "server", some (bytes "mqtt.exampl"))] := by
  decide

/-- The copy counts bytes, not characters: of five two-byte characters a
parameter of declared length 4 keeps three bytes, one character and a half. -/
theorem handleWifiSave_counts_bytes :
    (handleWifiSave stubEnv accentRequest
        { parameterState with _params := [nameParameter] })._params.map
      (fun p => (p._id, p._value)) = [(some "name", some [0xc3, 0xa9, 0xc3])] := by
  decide

/-- C17, as amended: on a form submission every registered parameter keeps
its id, placeholder, declared length and custom HTML; a parameter without a
value buffer or with declared length 0 is left as it was; otherwise the
buffer afterwards holds a prefix of the bytes of the value of the field named
by the parameter's id (the value as a C string, up to its first NUL), of at
most the declared length, the whole value when that has fewer bytes than the
declared length, and the empty string when the request carries no such
field. -/
theorem C17_handleWifiSave_parameters (E : Env σ) (req : Request) (s : WiFiManager σ)
    (k : Nat) (p : WiFiManagerParameter) (hp : s._params[k]? = some p) :
    (handleWifiSave E req s)._params.length = s._params.length ∧
    ∃ q, (handleWifiSave E req s)._params[k]? = some q ∧
      q._id = p._id ∧ q._placeholder = p._placeholder ∧ q._length = p._length ∧
      q._customHTML = p._customHTML ∧
      (p._value = none ∨ p._length = 0 → q._value = p._value) ∧
      (p._value ≠ none → 0 < p._length →
        ∃ v, q._value = some v ∧
          v <+: bytes (c_str (req.arg (p._id.getD ""))) ∧
          v.length ≤ p._length ∧
          (strlen (req.arg (p._id.getD "")) < p._length →
            v = bytes (c_str (req.arg (p._id.getD "")))) ∧
          (req.lacks (p._id.getD "") → v = [])) := by
  rw [handleWifiSave_params]
  refine ⟨by simp, toCharArray (c_str (req.arg (p._id.getD ""))) p, by simp [hp], ?_⟩
  obtain ⟨h1, h2, h3, h4⟩ := toCharArray_frame (c_str (req.arg (p._id.getD ""))) p
  refine ⟨h1, h2, h3, h4, ?_, ?_⟩
  · intro h
    rw [toCharArray_untouched _ _ h]
  · intro hv hl
    refine ⟨_, toCharArray_value _ _ hv hl, ?_, ?_, ?_, ?_⟩
    · rw [c_str_idem]
      exact List.take_prefix _ _
    · rw [List.length_take]
      omega
    · intro hlen
      rw [c_str_idem]
      apply List.take_of_length_le
      unfold strlen at hlen
      omega
    · intro hlack
      rw [arg_of_lacks _ _ hlack]
      have : bytes (c_str (c_str "")) = [] := by decide
      rw [this, List.take_nil]

theorem C17_handleWifiSave_parameters_witness :
    (handleWifiSave stubEnv homeNetRequest parameterState)._params.length =
      parameterState._params.length ∧
    ∃ q, (handleWifiSave stubEnv homeNetRequest parameterState)._params[0]? = some q ∧
      q._id = serverParameter._id ∧ q._placeholder = serverParameter._placeholder ∧
      q._length = serverParameter._length ∧
      q._customHTML = serverParameter._customHTML ∧
      (serverParameter._value = none ∨ serverParameter._length = 0 →
        q._value = serverParameter._value) ∧
      (serverParameter._value ≠ none → 0 < serverParameter._length →
        ∃ v, q._value = some v ∧
          v <+: bytes (c_str (homeNetRequest.arg (serverParameter._id.getD ""))) ∧
          v.length ≤ serverParameter._length ∧
          (strlen (homeNetRequest.arg (serverParameter._id.getD "")) < serverParameter._length →
            v = bytes (c_str (homeNetRequest.arg (serverParameter._id.getD "")))) ∧
          (homeNetRequest.lacks (serverParameter._id.getD "") → v = [])) :=
  C17_handleWifiSave_parameters stubEnv homeNetRequest parameterState 0 serverParameter rfl

/-! ## The ranking of the scan results -/

theorem getD_append_at (pre rest : List Int) (x d : Int) :
    (pre ++ x :: rest).getD pre.length d = x := by
  induction pre with
  | nil => rfl
  | cons a pre ih => simpa using ih

theorem set_append_at (pre rest : List Int) (x v : Int) :
    (pre ++ x :: rest).set pre.length v = pre ++ v :: rest := by
  induction pre with
  | nil => rfl
  | cons a pre ih => simp

theorem getD_split (pre done rest : List Int) (p x d : Int) :
    (pre ++ p :: (done ++ x :: rest)).getD (pre.length + 1 + done.length) d = x := by
  have h : pre ++ p :: (done ++ x :: rest) = (pre ++ p :: done) ++ x :: rest := by simp
  have hl : pre.length + 1 + done.length = (pre ++ p :: done).length := by simp; omega
  rw [h, hl, getD_append_at]

theorem set_split (pre done rest : List Int) (p x v : Int) :
    (pre ++ p :: (done ++ x :: rest)).set (pre.length + 1 + done.length) v =
      pre ++ p :: (done ++ v :: rest) := by
  have h : pre ++ p :: (done ++ x :: rest) = (pre ++ p :: done) ++ x :: rest := by simp
  have hl : pre.length + 1 + done.length = (pre ++ p :: done).length := by simp; omega
  rw [h, hl, set_append_at]
  simp

theorem swap_split (pre done rest : List Int) (p x : Int) :
    swap (pre ++ p :: (done ++ x :: rest)) pre.length (pre.length + 1 + done.length) =
      pre ++ x :: (done ++ p :: rest) := by
  unfold swap
  rw [getD_split, getD_append_at, set_append_at, set_split]

/-- The inner loop of the sort, started at `j`, on the elements. -/
theorem rssiSort_inner_from (w : ScanTable) (pre : List Int) :
    ∀ (rest done : List Int) (p : Int),
      (List.range' (pre.length + 1 + done.length) rest.length).foldl
        (fun indices j =>
          if w.RSSI (indices.getD j 0) > w.RSSI (indices.getD pre.length 0) then
            swap indices pre.length j
          else indices)
        (pre ++ p :: (done ++ rest)) =
      pre ++ (exchangePass w p rest).1 :: (done ++ (exchangePass w p rest).2) := by
  intro rest
  induction rest with
  | nil => intro done p; rfl
  | cons x rest ih =>
    intro done p
    have hl : pre.length + 1 + done.length + 1 = pre.length + 1 + (done ++ [p]).length := by
      simp; omega
    have hl2 : pre.length + 1 + done.length + 1 = pre.length + 1 + (done ++ [x]).length := by
      simp; omega
    simp only [List.length_cons, List.range'_succ, List.foldl_cons, getD_split, getD_append_at,
      swap_split, exchangePass]
    by_cases h : w.RSSI x > w.RSSI p
    · rw [if_pos h, if_pos h]
      have := ih (done ++ [p]) x
      simp only [List.append_assoc, List.singleton_append] at this
      rw [hl, this]
    · rw [if_neg h, if_neg h]
      have := ih (done ++ [x]) p
      simp only [List.append_assoc, List.singleton_append] at this
      rw [hl2, this]

theorem rssiSortInner_elements (w : ScanTable) (pre t : List Int) (p : Int) :
    rssiSortInner w (pre ++ p :: t).length pre.length (pre ++ p :: t) =
      pre ++ (exchangePass w p t).1 :: (exchangePass w p t).2 := by
  unfold rssiSortInner
  have hn : (pre ++ p :: t).length - (pre.length + 1) = t.length := by simp; omega
  rw [hn]
  exact rssiSort_inner_from w pre t [] p

theorem exchangePass_length (w : ScanTable) :
    ∀ (t : List Int) (p : Int), (exchangePass w p t).2.length = t.length := by
  intro t
  induction t with
  | nil => intro p; rfl
  | cons x t ih =>
    intro p
    simp only [exchangePass]
    split <;> simp [ih]

theorem exchangePass_perm (w : ScanTable) :
    ∀ (t : List Int) (p : Int),
      ((exchangePass w p t).1 :: (exchangePass w p t).2).Perm (p :: t) := by
  intro t
  induction t with
  | nil => intro p; exact List.Perm.refl _
  | cons x t ih =>
    intro p
    simp only [exchangePass]
    split
    · exact (List.Perm.swap _ _ _).trans ((ih x).cons p)
    · exact ((List.Perm.swap _ _ _).trans ((ih p).cons x)).trans (List.Perm.swap _ _ _)

/-- After the inner loop the element at `i` is at least as strong as the one
that was there. -/
theorem exchangePass_ge (w : ScanTable) :
    ∀ (t : List Int) (p : Int), w.RSSI p ≤ w.RSSI (exchangePass w p t).1 := by
  intro t
  induction t with
  | nil => intro p; exact le_refl _
  | cons x t ih =>
    intro p
    simp only [exchangePass]
    split
    · rename_i h
      exact le_trans (le_of_lt h) (ih x)
    · exact ih p

/-- After the inner loop no later element is stronger than the one at `i`. -/
theorem exchangePass_max (w : ScanTable) :
    ∀ (t : List Int) (p : Int), ∀ y ∈ (exchangePass w p t).2,
      w.RSSI y ≤ w.RSSI (exchangePass w p t).1 := by
  intro t
  induction t with
  | nil => intro p y hy; simp [exchangePass] at hy
  | cons x t ih =>
    intro p y hy
    simp only [exchangePass] at hy ⊢
    split at hy
    · rename_i h
      rw [if_pos h]
      simp only [List.mem_cons] at hy
      rcases hy with rfl | hy
      · exact le_trans (le_of_lt h) (exchangePass_ge w t x)
      · exact ih x y hy
    · rename_i h
      rw [if_neg h]
      simp only [List.mem_cons] at hy
      rcases hy with rfl | hy
      · exact le_trans (not_lt.mp h) (exchangePass_ge w t p)
      · exact ih p y hy

theorem exchangeSort_perm (w : ScanTable) :
    ∀ (k : Nat) (l : List Int), (exchangeSort w k l).Perm l := by
  intro k
  induction k with
  | zero => intro l; exact List.Perm.refl _
  | succ k ih =>
    intro l
    cases l with
    | nil => exact List.Perm.refl _
    | cons p t =>
      simp only [exchangeSort]
      exact ((ih _).cons _).trans (exchangePass_perm w t p)

theorem exchangeSort_sorted (w : ScanTable) :
    ∀ (k : Nat) (l : List Int), l.length ≤ k →
      (exchangeSort w k l).Pairwise (fun a b => w.RSSI a ≥ w.RSSI b) := by
  intro k
  induction k with
  | zero =>
    intro l hl
    have : l = [] := List.length_eq_zero.mp (by omega)
    subst this
    exact List.Pairwise.nil
  | succ k ih =>
    intro l hl
    cases l with
    | nil => exact List.Pairwise.nil
    | cons p t =>
      simp only [exchangeSort]
      refine List.Pairwise.cons ?_ (ih _ ?_)
      · intro y hy
        exact exchangePass_max w t p y ((exchangeSort_perm w k _).subset hy)
      · rw [exchangePass_length]
        simpa using hl

/-- The sorting loops from `i` on, on the elements. -/
theorem rssiSort_loop_from (w : ScanTable) :
    ∀ (k : Nat) (rest pre : List Int), rest.length = k →
      (List.range' pre.length k).foldl
        (fun indices i => rssiSortInner w (pre.length + k) i indices) (pre ++ rest) =
      pre ++ exchangeSort w k rest := by
  intro k
  induction k with
  | zero =>
    intro rest pre hk
    rfl
  | succ k ih =>
    intro rest pre hk
    cases rest with
    | nil => simp at hk
    | cons p t =>
      have hn : pre.length + (k + 1) = (pre ++ p :: t).length := by
        simp only [List.length_append, List.length_cons] at hk ⊢
        omega
      have hk2 : (exchangePass w p t).2.length = k := by
        rw [exchangePass_length]
        simpa using hk
      have hn2 : pre.length + (k + 1) = (pre ++ [(exchangePass w p t).1]).length + k := by
        simp
        omega
      have hi : pre.length + 1 = (pre ++ [(exchangePass w p t).1]).length := by simp
      have := ih (exchangePass w p t).2 (pre ++ [(exchangePass w p t).1]) hk2
      simp only [List.range'_succ, List.foldl_cons, exchangeSort]
      rw [hn, rssiSortInner_elements, ← hn, hn2, hi]
      simpa using this

theorem rssiSortLoop_elements (w : ScanTable) (indices : List Int) :
    rssiSortLoop w indices.length indices = exchangeSort w indices.length indices := by
  have := rssiSort_loop_from w indices.length indices [] rfl
  simpa [rssiSortLoop, List.range_eq_range'] using this

/-- C11: for every scan table and every number of networks, the RSSI sort
leaves in `indices` a permutation of the scan indices `0..n-1` whose signal
strengths are non-increasing. -/
theorem C11_rssiSort_ranked (w : ScanTable) (n : Nat) :
    (rssiSort w n).Perm ((List.range n).map Int.ofNat) ∧
    (rssiSort w n).Pairwise (fun a b => w.RSSI a ≥ w.RSSI b) := by
  have h := rssiSortLoop_elements w ((List.range n).map Int.ofNat)
  rw [List.length_map, List.length_range] at h
  unfold rssiSort
  rw [h]
  exact ⟨exchangeSort_perm w n _, exchangeSort_sorted w n _ (by simp)⟩

theorem exchangePass_of_max (w : ScanTable) :
    ∀ (t : List Int) (p : Int), (∀ x ∈ t, w.RSSI x ≤ w.RSSI p) → exchangePass w p t = (p, t) := by
  intro t
  induction t with
  | nil => intro p _; rfl
  | cons x t ih =>
    intro p h
    have hx : ¬ w.RSSI x > w.RSSI p := not_lt.mpr (h x (List.mem_cons_self _ _))
    simp only [exchangePass, if_neg hx, ih p (fun y hy => h y (List.mem_cons_of_mem _ hy))]

theorem exchangeSort_of_sorted (w : ScanTable) :
    ∀ (k : Nat) (l : List Int), l.Pairwise (fun a b => w.RSSI a ≥ w.RSSI b) →
      exchangeSort w k l = l := by
  intro k
  induction k with
  | zero => intro l _; rfl
  | succ k ih =>
    intro l h
    cases l with
    | nil => rfl
    | cons p t =>
      rw [List.pairwise_cons] at h
      simp only [exchangeSort, exchangePass_of_max w t p h.1, ih t h.2]

theorem pairwise_of_alreadyRanked (w : ScanTable) (n : Nat) (h : AlreadyRanked w n) :
    ((List.range n).map Int.ofNat).Pairwise (fun a b => w.RSSI a ≥ w.RSSI b) := by
  rw [List.pairwise_map]
  refine List.Pairwise.imp_of_mem ?_ (List.pairwise_lt_range n)
  intro a b _ hb hab
  exact h a b hab (List.mem_range.mp hb)

/-- The element the inner loop leaves at `i` is the first of the strongest:
it was at `i`, or further on with only weaker elements before it. -/
theorem exchangePass_first (w : ScanTable) :
    ∀ (t : List Int) (p : Int), (exchangePass w p t).1 = p ∨
      ∃ t1 t2, t = t1 ++ (exchangePass w p t).1 :: t2 ∧
        ∀ y ∈ p :: t1, w.RSSI y < w.RSSI (exchangePass w p t).1 := by
  intro t
  induction t with
  | nil => intro p; exact Or.inl rfl
  | cons x t ih =>
    intro p
    simp only [exchangePass]
    by_cases h : w.RSSI x > w.RSSI p
    · simp only [if_pos h]
      right
      rcases ih x with h1 | ⟨t1, t2, h1, h2⟩
      · refine ⟨[], t, by rw [h1]; rfl, ?_⟩
        intro y hy
        simp only [List.mem_singleton] at hy
        rw [h1, hy]
        exact h
      · refine ⟨x :: t1, t2, by rw [List.cons_append, ← h1], ?_⟩
        intro y hy
        rcases List.mem_cons.mp hy with rfl | hy
        · exact lt_trans h (h2 x (List.mem_cons_self _ _))
        · exact h2 y hy
    · simp only [if_neg h]
      rcases ih p with h1 | ⟨t1, t2, h1, h2⟩
      · exact Or.inl h1
      · right
        refine ⟨x :: t1, t2, by rw [List.cons_append, ← h1], ?_⟩
        intro y hy
        rcases List.mem_cons.mp hy with rfl | hy
        · exact h2 y (List.mem_cons_self _ _)
        · rcases List.mem_cons.mp hy with rfl | hy
          · exact lt_of_le_of_lt (not_lt.mp h) (h2 p (List.mem_cons_self _ _))
          · exact h2 y (List.mem_cons_of_mem _ hy)

theorem exchangePass_all_le (w : ScanTable) (t : List Int) (p : Int) :
    ∀ y ∈ p :: t, w.RSSI y ≤ w.RSSI (exchangePass w p t).1 := by
  intro y hy
  have hy2 := (exchangePass_perm w t p).symm.subset hy
  rcases List.mem_cons.mp hy2 with rfl | hy2
  · exact le_refl _
  · exact exchangePass_max w t p y hy2

/-- The first entry of the ranking is the earliest scan entry of the
greatest strength. -/
theorem rssiSort_head (w : ScanTable) (n : Nat) (hn : 0 < n) :
    ∃ h : Nat, h < n ∧ (rssiSort w n).head? = some (Int.ofNat h) ∧
      (∀ j, j < n → w.RSSI (Int.ofNat j) ≤ w.RSSI (Int.ofNat h)) ∧
      (∀ j, j < h → w.RSSI (Int.ofNat j) < w.RSSI (Int.ofNat h)) := by
  have hs := rssiSortLoop_elements w ((List.range n).map Int.ofNat)
  rw [List.length_map, List.length_range] at hs
  have hget : ∀ j, j < n → ((List.range n).map Int.ofNat)[j]? = some (Int.ofNat j) := by
    intro j hj
    simp [List.getElem?_range, hj]
  obtain ⟨k, rfl⟩ : ∃ k, n = k + 1 := ⟨n - 1, by omega⟩
  cases hinit : (List.range (k + 1)).map Int.ofNat with
  | nil => simp [List.range_succ] at hinit
  | cons p t =>
    rw [hinit] at hget hs
    have hall := exchangePass_all_le w t p
    have hmem : ∀ j, j < k + 1 → Int.ofNat j ∈ p :: t := by
      intro j hj
      exact List.getElem?_mem (hget j hj)
    have hhead : (rssiSort w (k + 1)).head? = some (exchangePass w p t).1 := by
      unfold rssiSort
      rw [hinit, hs]
      rfl
    rcases exchangePass_first w t p with h1 | ⟨t1, t2, h1, h2⟩
    · refine ⟨0, by omega, ?_, ?_, ?_⟩
      · rw [hhead, h1]
        have := hget 0 (by omega)
        simpa using this
      · intro j hj
        have h0 : Int.ofNat 0 = (exchangePass w p t).1 := by
          rw [h1]
          have := hget 0 (by omega)
          simpa using this.symm
        rw [h0]
        exact hall _ (hmem j hj)
      · intro j hj
        omega
    · have hlen : (p :: t).length = k + 1 := by
        rw [← hinit]
        simp
      have hsplit : p :: t = (p :: t1) ++ (exchangePass w p t).1 :: t2 := by
        rw [List.cons_append, ← h1]
      have hlt : (p :: t1).length < k + 1 := by
        rw [← hlen, hsplit]
        simp
      have hm : Int.ofNat (p :: t1).length = (exchangePass w p t).1 := by
        have := hget (p :: t1).length hlt
        rw [hsplit, List.getElem?_append_right (le_refl _)] at this
        simpa using this.symm
      refine ⟨(p :: t1).length, hlt, by rw [hhead, hm], ?_, ?_⟩
      · intro j hj
        rw [hm]
        exact hall _ (hmem j hj)
      · intro j hj
        rw [hm]
        apply h2
        have := hget j (by omega)
        rw [hsplit, List.getElem?_append_left hj] at this
        exact List.getElem?_mem this

/-- C12, counterexample: of three networks of strengths -60, -60 and -40, the
first two are equally strong and the ranking is 2, 1, 0: network 1 comes
before network 0, which came first in the scan. -/
theorem C12_counterexample :
    tiedTable.RSSI 0 = tiedTable.RSSI 1 ∧
    rssiSort tiedTable 3 = [2, 1, 0] ∧
    (rssiSort tiedTable 3).indexOf 1 < (rssiSort tiedTable 3).indexOf 0 := by
  decide

/-- C12, as amended: the sort exchanges two entries only when the later one
is strictly stronger.  So a scan that is already in non-increasing order of
strength is ranked in scan order, every tie included; and in every ranking the
first entry is the earliest scan entry of the greatest strength.  Further
down, entries of equal strength may come out in either order. -/
theorem C12_rssiSort_ties (w : ScanTable) (n : Nat) :
    (AlreadyRanked w n → rssiSort w n = (List.range n).map Int.ofNat) ∧
    (0 < n → ∃ h : Nat, h < n ∧ (rssiSort w n).head? = some (Int.ofNat h) ∧
      (∀ j, j < n → w.RSSI (Int.ofNat j) ≤ w.RSSI (Int.ofNat h)) ∧
      (∀ j, j < h → w.RSSI (Int.ofNat j) < w.RSSI (Int.ofNat h))) := by
  refine ⟨?_, rssiSort_head w n⟩
  intro h
  have hs := rssiSortLoop_elements w ((List.range n).map Int.ofNat)
  rw [List.length_map, List.length_range] at hs
  unfold rssiSort
  rw [hs]
  exact exchangeSort_of_sorted w n _ (pairwise_of_alreadyRanked w n h)

theorem alreadyRanked_equalTable : AlreadyRanked equalTable 3 := by
  intro i j hij hj
  have hi : i < 3 := by omega
  interval_cases j <;> interval_cases i <;> first | omega | decide

theorem C12_rssiSort_ties_witness :
    rssiSort equalTable 3 = [0, 1, 2] ∧
    ∃ h : Nat, h < 3 ∧ (rssiSort tiedTable 3).head? = some (Int.ofNat h) ∧
      (∀ j, j < 3 → tiedTable.RSSI (Int.ofNat j) ≤ tiedTable.RSSI (Int.ofNat h)) ∧
      (∀ j, j < h → tiedTable.RSSI (Int.ofNat j) < tiedTable.RSSI (Int.ofNat h)) :=
  ⟨(C12_rssiSort_ties equalTable 3).1 alreadyRanked_equalTable,
    (C12_rssiSort_ties tiedTable 3).2 (by decide)⟩


/-! ## The removal of duplicates -/

/-- The inner loop of the duplicate removal, started at `j`, on the elements. -/
theorem removeDuplicates_inner_from (w : ScanTable) (cssid : String) (pre : List Int) (p : Int) :
    ∀ (rest done : List Int),
      (List.range' (pre.length + 1 + done.length) rest.length).foldl
        (fun indices j =>
          if cssid = w.SSID (indices.getD j 0) then indices.set j (-1) else indices)
        (pre ++ p :: (done ++ rest)) =
      pre ++ p :: (done ++ rest.map (fun y => if cssid = w.SSID y then -1 else y)) := by
  intro rest
  induction rest with
  | nil => intro done; rfl
  | cons x rest ih =>
    intro done
    have hl : ∀ v : Int,
        pre.length + 1 + done.length + 1 = pre.length + 1 + (done ++ [v]).length := by
      intro v
      simp
      omega
    simp only [List.length_cons, List.range'_succ, List.foldl_cons, getD_split, set_split,
      List.map_cons]
    by_cases h : cssid = w.SSID x
    · rw [if_pos h, if_pos h]
      have := ih (done ++ [-1])
      simp only [List.append_assoc, List.singleton_append] at this
      rw [hl (-1), this]
    · rw [if_neg h, if_neg h]
      have := ih (done ++ [x])
      simp only [List.append_assoc, List.singleton_append] at this
      rw [hl x, this]

theorem removeDuplicatesInner_elements (w : ScanTable) (cssid : String) (pre t : List Int)
    (p : Int) :
    removeDuplicatesInner w (pre ++ p :: t).length pre.length cssid (pre ++ p :: t) =
      pre ++ p :: t.map (fun y => if cssid = w.SSID y then -1 else y) := by
  unfold removeDuplicatesInner
  have hn : (pre ++ p :: t).length - (pre.length + 1) = t.length := by simp; omega
  rw [hn]
  exact removeDuplicates_inner_from w cssid pre p t []

/-- Hiding the entries of one more SSID in a masked sequence. -/
theorem masked_hide (w : ScanTable) (seen : List String) (x : Int) (t : List Int) :
    (masked w seen t).map (fun y => if w.SSID x = w.SSID y then -1 else y) =
      masked w (w.SSID x :: seen) t := by
  unfold masked
  rw [List.map_map]
  apply List.map_congr_left
  intro y _
  simp only [Function.comp, List.mem_cons]
  by_cases h1 : w.SSID y ∈ seen
  · simp [h1]
  · by_cases h2 : w.SSID x = w.SSID y
    · simp [h1, h2]
    · have h3 : ¬ w.SSID y = w.SSID x := fun h => h2 h.symm
      simp [h1, h2, h3]

/-- The loop of the duplicate removal from `i` on, on the elements. -/
theorem removeDuplicates_loop_from (w : ScanTable) :
    ∀ (rest pre : List Int) (seen : List String), (∀ x ∈ rest, x ≠ -1) →
      (List.range' pre.length rest.length).foldl
        (fun indices i =>
          if indices.getD i 0 = -1 then indices
          else removeDuplicatesInner w (pre.length + rest.length) i
            (w.SSID (indices.getD i 0)) indices)
        (pre ++ masked w seen rest) =
      pre ++ hideSeen w seen rest := by
  intro rest
  induction rest with
  | nil => intro pre seen _; rfl
  | cons x t ih =>
    intro pre seen hx
    have hx1 : x ≠ -1 := hx x (List.mem_cons_self _ _)
    have ht : ∀ y ∈ t, y ≠ -1 := fun y hy => hx y (List.mem_cons_of_mem _ hy)
    have hi : ∀ v : Int, pre.length + 1 = (pre ++ [v]).length := by
      intro v
      simp
    have hn : ∀ v : Int, pre.length + (t.length + 1) = (pre ++ [v]).length + t.length := by
      intro v
      simp
      omega
    simp only [List.length_cons, List.range'_succ, List.foldl_cons, hideSeen]
    by_cases h : w.SSID x ∈ seen
    · have hm : masked w seen (x :: t) = (-1) :: masked w seen t := by
        simp [masked, h]
      rw [hm, getD_append_at, if_pos rfl, if_pos h, hn (-1), hi (-1)]
      have := ih (pre ++ [-1]) seen ht
      simpa using this
    · have hm : masked w seen (x :: t) = x :: masked w seen t := by
        simp [masked, h]
      have hlen : pre.length + (t.length + 1) = (pre ++ x :: masked w seen t).length := by
        simp [masked]
      rw [hm, getD_append_at, if_neg hx1, if_neg h]
      rw [hlen, removeDuplicatesInner_elements, masked_hide, ← hlen, hn x, hi x]
      have := ih (pre ++ [x]) (w.SSID x :: seen) ht
      simpa using this

theorem masked_nil (w : ScanTable) (l : List Int) : masked w [] l = l := by
  simp [masked]

theorem removeDuplicates_elements (w : ScanTable) (indices : List Int)
    (h : ∀ x ∈ indices, x ≠ -1) :
    removeDuplicates w indices.length indices = hideSeen w [] indices := by
  have := removeDuplicates_loop_from w indices [] [] h
  rw [masked_nil] at this
  simpa [removeDuplicates, List.range_eq_range'] using this

theorem hideSeen_length (w : ScanTable) :
    ∀ (l : List Int) (seen : List String), (hideSeen w seen l).length = l.length := by
  intro l
  induction l with
  | nil => intro seen; rfl
  | cons x t ih =>
    intro seen
    simp only [hideSeen]
    split <;> simp [ih]

/-- The entry the duplicate removal leaves at position `k`. -/
theorem hideSeen_getD (w : ScanTable) :
    ∀ (l : List Int) (seen : List String) (k : Nat), k < l.length →
      (hideSeen w seen l).getD k 0 =
        if w.SSID (l.getD k 0) ∈ seen ∨
            ∃ i, i < k ∧ w.SSID (l.getD i 0) = w.SSID (l.getD k 0) then -1
        else l.getD k 0 := by
  intro l
  induction l with
  | nil => intro seen k hk; simp at hk
  | cons x t ih =>
    intro seen k hk
    cases k with
    | zero =>
      simp only [hideSeen]
      by_cases h : w.SSID x ∈ seen
      · simp [h]
      · simp [h]
    | succ k =>
      have hk2 : k < t.length := by simpa using hk
      have hex : (∃ i, i < k + 1 ∧ w.SSID ((x :: t).getD i 0) = w.SSID (t.getD k 0)) ↔
          (w.SSID x = w.SSID (t.getD k 0) ∨
            ∃ i, i < k ∧ w.SSID (t.getD i 0) = w.SSID (t.getD k 0)) := by
        constructor
        · rintro ⟨i, hi, he⟩
          cases i with
          | zero => exact Or.inl (by simpa using he)
          | succ i => exact Or.inr ⟨i, by omega, by simpa using he⟩
        · rintro (he | ⟨i, hi, he⟩)
          · exact ⟨0, by omega, by simpa using he⟩
          · exact ⟨i + 1, by omega, by simpa using he⟩
      simp only [hideSeen]
      by_cases h : w.SSID x ∈ seen
      · rw [if_pos h, List.getD_cons_succ, ih seen k hk2, List.getD_cons_succ]
        have hiff : (w.SSID (t.getD k 0) ∈ seen ∨
              ∃ i, i < k ∧ w.SSID (t.getD i 0) = w.SSID (t.getD k 0)) ↔
            (w.SSID (t.getD k 0) ∈ seen ∨ w.SSID x = w.SSID (t.getD k 0) ∨
              ∃ i, i < k ∧ w.SSID (t.getD i 0) = w.SSID (t.getD k 0)) := by
          constructor
          · rintro (h1 | h1)
            · exact Or.inl h1
            · exact Or.inr (Or.inr h1)
          · rintro (h1 | h1 | h1)
            · exact Or.inl h1
            · exact Or.inl (h1 ▸ h)
            · exact Or.inr h1
        exact if_congr (hiff.trans (or_congr Iff.rfl hex.symm)) rfl rfl
      · rw [if_neg h, List.getD_cons_succ, ih (w.SSID x :: seen) k hk2, List.getD_cons_succ]
        have hiff : (w.SSID (t.getD k 0) ∈ w.SSID x :: seen ∨
              ∃ i, i < k ∧ w.SSID (t.getD i 0) = w.SSID (t.getD k 0)) ↔
            (w.SSID (t.getD k 0) ∈ seen ∨ w.SSID x = w.SSID (t.getD k 0) ∨
              ∃ i, i < k ∧ w.SSID (t.getD i 0) = w.SSID (t.getD k 0)) := by
          rw [List.mem_cons]
          constructor
          · rintro ((h1 | h1) | h1)
            · exact Or.inr (Or.inl h1.symm)
            · exact Or.inl h1
            · exact Or.inr (Or.inr h1)
          · rintro (h1 | h1 | h1)
            · exact Or.inl (Or.inr h1)
            · exact Or.inl (Or.inl h1.symm)
            · exact Or.inr h1
        exact if_congr (hiff.trans (or_congr Iff.rfl hex.symm)) rfl rfl

/-- The entries that remain are in the order they had. -/
theorem hideSeen_sublist (w : ScanTable) :
    ∀ (l : List Int) (seen : List String), (∀ x ∈ l, x ≠ -1) →
      ((hideSeen w seen l).filter (fun x => decide (x ≠ -1))).Sublist l := by
  intro l
  induction l with
  | nil => intro seen _; exact List.Sublist.refl _
  | cons x t ih =>
    intro seen hx
    have hx1 : x ≠ -1 := hx x (List.mem_cons_self _ _)
    have ht : ∀ y ∈ t, y ≠ -1 := fun y hy => hx y (List.mem_cons_of_mem _ hy)
    simp only [hideSeen]
    by_cases h : w.SSID x ∈ seen
    · rw [if_pos h, List.filter_cons_of_neg (by simp)]
      exact (ih seen ht).cons x
    · rw [if_neg h, List.filter_cons_of_pos (by simpa using hx1)]
      exact (ih _ ht).cons₂ x

/-- C13: with the duplicate removal enabled, for every ranked sequence of
scan indices the entry at position `k` gets index -1 exactly when an earlier
position holds an entry with the same SSID; every other entry keeps its
index and its position, so the first occurrence of an SSID is never hidden
and the entries that remain are in the order they had. -/
theorem C13_removeDuplicates_marks_later (w : ScanTable) (indices : List Int)
    (hidx : ∀ x ∈ indices, x ≠ -1) :
    (removeDuplicates w indices.length indices).length = indices.length ∧
    (∀ k, k < indices.length →
      ((removeDuplicates w indices.length indices).getD k 0 = -1 ↔
        ∃ i, i < k ∧ w.SSID (indices.getD i 0) = w.SSID (indices.getD k 0)) ∧
      ((removeDuplicates w indices.length indices).getD k 0 ≠ -1 →
        (removeDuplicates w indices.length indices).getD k 0 = indices.getD k 0)) ∧
    ((removeDuplicates w indices.length indices).filter (fun x => decide (x ≠ -1))).Sublist
      indices := by
  rw [removeDuplicates_elements w indices hidx]
  refine ⟨hideSeen_length w indices [], ?_, hideSeen_sublist w indices [] hidx⟩
  intro k hk
  have hne : indices.getD k 0 ≠ -1 := by
    apply hidx
    rw [List.getD_eq_getElem _ _ hk]
    exact List.getElem_mem _
  rw [hideSeen_getD w indices [] k hk]
  simp only [List.not_mem_nil, false_or]
  by_cases h : ∃ i, i < k ∧ w.SSID (indices.getD i 0) = w.SSID (indices.getD k 0)
  · rw [if_pos h]
    exact ⟨⟨fun _ => h, fun _ => rfl⟩, fun hc => absurd rfl hc⟩
  · rw [if_neg h]
    exact ⟨⟨fun hc => absurd hc hne, fun hc => absurd hc h⟩, fun _ => rfl⟩

theorem C13_removeDuplicates_marks_later_witness :
    (removeDuplicates sixTable [4, 2, 0, 3, 1, 5].length [4, 2, 0, 3, 1, 5]).length =
      [4, 2, 0, 3, 1, 5].length ∧
    (∀ k, k < [4, 2, 0, 3, 1, 5].length →
      ((removeDuplicates sixTable [4, 2, 0, 3, 1, 5].length [4, 2, 0, 3, 1, 5]).getD k 0 = -1 ↔
        ∃ i, i < k ∧ sixTable.SSID ([4, 2, 0, 3, 1, 5].getD i 0) =
          sixTable.SSID ([4, 2, 0, 3, 1, 5].getD k 0)) ∧
      ((removeDuplicates sixTable [4, 2, 0, 3, 1, 5].length [4, 2, 0, 3, 1, 5]).getD k 0 ≠ -1 →
        (removeDuplicates sixTable [4, 2, 0, 3, 1, 5].length [4, 2, 0, 3, 1, 5]).getD k 0 =
          [4, 2, 0, 3, 1, 5].getD k 0)) ∧
    ((removeDuplicates sixTable [4, 2, 0, 3, 1, 5].length [4, 2, 0, 3, 1, 5]).filter
      (fun x => decide (x ≠ -1))).Sublist [4, 2, 0, 3, 1, 5] :=
  C13_removeDuplicates_marks_later sixTable [4, 2, 0, 3, 1, 5] (by decide)

/-- The ranking of `sixTable` and what the duplicate removal leaves of it. -/
theorem removeDuplicates_sixTable :
    rssiSort sixTable 6 = [4, 2, 0, 3, 1, 5] ∧
    removeDuplicates sixTable 6 (rssiSort sixTable 6) = [4, 2, -1, 3, 1, -1] := by
  decide!


/-! ## The quality filter -/

/-- The display loop from `i` on, on the elements. -/
theorem displayNetworks_from (w : ScanTable) (minimumQuality : Int) :
    ∀ (rest pre : List Int) (page : List Item),
      (List.range' pre.length rest.length).foldl
        (fun page i =>
          if (pre ++ rest).getD i 0 = -1 then page
          else
            let quality := getRSSIasQuality (w.RSSI ((pre ++ rest).getD i 0))
            if minimumQuality = -1 ∨ minimumQuality < quality then
              page ++ [{ v := w.SSID ((pre ++ rest).getD i 0), r := quality,
                         i := if w.encrypted ((pre ++ rest).getD i 0) then "l" else "" }]
            else page)
        page =
      page ++ rest.filterMap (displayed w minimumQuality) := by
  intro rest
  induction rest with
  | nil => intro pre page; simp
  | cons x t ih =>
    intro pre page
    have hi : pre.length + 1 = (pre ++ [x]).length := by simp
    have ha : pre ++ x :: t = (pre ++ [x]) ++ t := by simp
    simp only [List.length_cons, List.range'_succ, List.foldl_cons, getD_append_at]
    rw [hi, ha, ih (pre ++ [x])]
    simp only [List.filterMap_cons, displayed]
    by_cases h1 : x = -1
    · simp [h1]
    · by_cases h2 : minimumQuality = -1 ∨ minimumQuality < getRSSIasQuality (w.RSSI x)
      · simp [h1, h2]
      · simp [h1, h2]

/-- The display loop lists, in order, the entries that are not hidden and
whose quality is greater than the minimum, all that are not hidden when the
minimum is -1. -/
theorem displayNetworks_elements (w : ScanTable) (minimumQuality : Int) (indices : List Int) :
    displayNetworks w indices.length minimumQuality indices =
      indices.filterMap (displayed w minimumQuality) := by
  have := displayNetworks_from w minimumQuality indices [] []
  simpa [displayNetworks, List.range_eq_range'] using this

/-- An entry that is not hidden is listed exactly when the minimum is -1 or
less than its quality. -/
theorem displayed_isSome (w : ScanTable) (minimumQuality index : Int) (h : index ≠ -1) :
    (displayed w minimumQuality index).isSome = true ↔
      (minimumQuality = -1 ∨ minimumQuality < getRSSIasQuality (w.RSSI index)) := by
  unfold displayed
  rw [if_neg h]
  split <;> simp [*]

/-- C14, where the code departs from the claim: with a minimum quality of
50, the network of strength -75, whose quality is 50, is left out of the
list; with a minimum of 49 and with the minimum -1 it is listed. -/
theorem C14_quality_equal_to_minimum_skipped :
    getRSSIasQuality (homeTable.RSSI 0) = 50 ∧
    networkList homeTable 1 true 50 = [] ∧
    networkList homeTable 1 true 49 = [{ v := "HomeNet", r := 50, i := "l" }] ∧
    networkList homeTable 1 true (-1) = [{ v := "HomeNet", r := 50, i := "l" }] := by
  decide

end WiFiManager
